import Mathlib

/-!
Shallow embedding of the battletech-sim combat engine
(src/battletech/tables.py, weapons.py, mech.py, heat.py, combat.py,
simulator.py), with theorems checking the specification's claims.

Conventions used throughout:

* Python `int` is modelled as `Int`.
* Python `float` values that only ever hold small exact quantities here
  (weapon tonnage, damage-per-heat ratios, damage-per-round, `heat_factor`,
  hit-point fractions) are modelled as `ℚ`.
* `random.randint(a, b)` draws are modelled by a stream `seq : Nat → Nat`
  with a cursor: the draw at cursor `n` yields `a + seq n % (b - a + 1)`,
  which always lies in `[a, b]`, and advances the cursor.  Every concrete
  sequence of in-range draws is realisable by a suitable stream, and
  `random.choice(xs)` is modelled as one uniform index draw.
* Debug/event strings are omitted: in the source they are logging only and
  feed no control flow.
* The mutually recursive damage pipeline (`Mech.apply_damage`,
  `Mech._apply_crits`, `Mech._ammo_explosion`) is modelled by one
  fuel-indexed dispatcher `pipeline` (structural recursion on the fuel),
  each branch being the faithful translation of the corresponding method.
  `.error "OutOfFuel"` marks fuel exhaustion, `.error "KeyError"` a failed
  dict lookup, and `.error "TypeError: ..."` a Python call-arity error: the
  call sites in simulator.py pass an extra `heat_factor` argument to
  `calculate_heat_dissipation` and `apply_heat_phase`, whose definitions in
  heat.py do not accept one, so those calls raise at run time.
-/

/-! Section: Definitions: the embedded program, derived state descriptions, and
the concrete test units used by the theorems below. -/

/-- Stream of raw draws for the random number generator model. -/
structure Rng where
  seq : Nat → Nat
  pos : Nat

def Rng.advance (r : Rng) : Rng := ⟨r.seq, r.pos + 1⟩

/-- Model of `random.randint(lo, hi)` (both bounds inclusive): consumes one
stream value and maps it into `[lo, hi]`. -/
def randint (lo hi : Int) (r : Rng) : Int × Rng :=
  (lo + (r.seq r.pos : Int) % (hi - lo + 1), r.advance)

/-- tables.py `roll_2d6`: sum of two independent 1–6 draws. -/
def roll_2d6 (r : Rng) : Int × Rng :=
  let (d1, r1) := randint 1 6 r
  let (d2, r2) := randint 1 6 r1
  (d1 + d2, r2)

/-- tables.py `FRONT_HIT_TABLE`.  `roll_2d6` only produces 2–12, so the
final branch covers exactly the roll 12 of the source dict. -/
def FRONT_HIT_TABLE (r : Int) : String :=
  if r = 2 then "CT" else if r = 3 then "RA" else if r = 4 then "RA"
  else if r = 5 then "RL" else if r = 6 then "RT" else if r = 7 then "CT"
  else if r = 8 then "LT" else if r = 9 then "LL" else if r = 10 then "LA"
  else if r = 11 then "LA" else "HD"

/-- tables.py `LEFT_SIDE_HIT_TABLE`. -/
def LEFT_SIDE_HIT_TABLE (r : Int) : String :=
  if r = 2 then "LT" else if r = 3 then "LL" else if r = 4 then "LA"
  else if r = 5 then "LA" else if r = 6 then "LL" else if r = 7 then "LT"
  else if r = 8 then "CT" else if r = 9 then "RT" else if r = 10 then "RA"
  else if r = 11 then "RL" else "HD"

/-- tables.py `RIGHT_SIDE_HIT_TABLE`. -/
def RIGHT_SIDE_HIT_TABLE (r : Int) : String :=
  if r = 2 then "RT" else if r = 3 then "RL" else if r = 4 then "RA"
  else if r = 5 then "RA" else if r = 6 then "RL" else if r = 7 then "RT"
  else if r = 8 then "CT" else if r = 9 then "LT" else if r = 10 then "LA"
  else if r = 11 then "LL" else "HD"

/-- tables.py `REAR_HIT_TABLE`. -/
def REAR_HIT_TABLE (r : Int) : String :=
  if r = 2 then "CT" else if r = 3 then "RT" else if r = 4 then "RT"
  else if r = 5 then "RL" else if r = 6 then "RT" else if r = 7 then "CT"
  else if r = 8 then "LT" else if r = 9 then "LL" else if r = 10 then "LT"
  else if r = 11 then "LT" else "HD"

/-- tables.py `roll_hit_location`; the engine only ever calls it with the
default direction "front" (an unknown key would raise KeyError in Python;
the rear table stands in for the unreachable dispatch default). -/
def roll_hit_location (direction : String) (r : Rng) : String × Rng :=
  let (v, r1) := roll_2d6 r
  (if direction == "front" then FRONT_HIT_TABLE v
   else if direction == "left" then LEFT_SIDE_HIT_TABLE v
   else if direction == "right" then RIGHT_SIDE_HIT_TABLE v
   else REAR_HIT_TABLE v, r1)

def CLUSTER_SIZES : List Int := [2, 4, 5, 6, 10, 15, 20]

/-- One row lookup of tables.py `CLUSTER_TABLE`; `size` must be one of
`CLUSTER_SIZES` and `r` a 2–12 roll for the branches to match the dict. -/
def CLUSTER_TABLE (size r : Int) : Int :=
  if size = 2 then (if r ≤ 7 then 1 else 2)
  else if size = 4 then
    (if r ≤ 3 then 1 else if r ≤ 6 then 2 else if r ≤ 10 then 3 else 4)
  else if size = 5 then
    (if r ≤ 2 then 1 else if r ≤ 4 then 2 else if r ≤ 8 then 3
     else if r ≤ 10 then 4 else 5)
  else if size = 6 then
    (if r ≤ 3 then 2 else if r ≤ 5 then 3 else if r ≤ 9 then 4
     else if r ≤ 11 then 5 else 6)
  else if size = 10 then
    (if r ≤ 3 then 3 else if r ≤ 4 then 4 else if r ≤ 8 then 6
     else if r ≤ 10 then 8 else 10)
  else if size = 15 then
    (if r ≤ 3 then 5 else if r ≤ 4 then 6 else if r ≤ 8 then 9
     else if r ≤ 10 then 12 else 15)
  else
    (if r ≤ 3 then 6 else if r ≤ 4 then 9 else if r ≤ 8 then 12
     else if r ≤ 10 then 16 else 20)

/-- tables.py nearest-size fallback of `roll_cluster_hits`: Python's
`min(valid_sizes, key=...)` keeps the first (smallest) size on ties. -/
def nearest_cluster_size (cluster_size : Int) : Int :=
  CLUSTER_SIZES.foldl
    (fun best s => if |s - cluster_size| < |best - cluster_size| then s else best) 2

/-- tables.py `roll_cluster_hits`. -/
def roll_cluster_hits (cluster_size : Int) (r : Rng) : Int × Rng :=
  let size := if CLUSTER_SIZES.contains cluster_size then cluster_size
              else nearest_cluster_size cluster_size
  let (v, r1) := roll_2d6 r
  (CLUSTER_TABLE size v, r1)

/-- tables.py `CRIT_TABLE` (2–7 ↦ 0, 8–9 ↦ 1, 10–11 ↦ 2, 12 ↦ 3). -/
def CRIT_TABLE (r : Int) : Int :=
  if r ≤ 7 then 0 else if r ≤ 9 then 1 else if r ≤ 11 then 2 else 3

/-- tables.py `roll_critical_hits`. -/
def roll_critical_hits (r : Rng) : Int × Rng :=
  let (v, r1) := roll_2d6 r
  (CRIT_TABLE v, r1)

/-- tables.py `TRANSFER_MAP` (`dict.get`: unknown location ids give none). -/
def TRANSFER_MAP (loc : String) : Option String :=
  if loc == "LT" || loc == "RT" then some "CT"
  else if loc == "LA" || loc == "LL" then some "LT"
  else if loc == "RA" || loc == "RL" then some "RT"
  else none

/-- tables.py `REAR_ARMOR_LOCATIONS`. -/
def REAR_ARMOR_LOCATIONS : List String := ["CT", "LT", "RT"]

/-- tables.py `get_target_movement_modifier` (falls through to 6 when no
bucket matches, e.g. for negative hex counts). -/
def get_target_movement_modifier (hexes_moved : Int) : Int :=
  if 0 ≤ hexes_moved ∧ hexes_moved ≤ 2 then 0
  else if 3 ≤ hexes_moved ∧ hexes_moved ≤ 4 then 1
  else if 5 ≤ hexes_moved ∧ hexes_moved ≤ 6 then 2
  else if 7 ≤ hexes_moved ∧ hexes_moved ≤ 9 then 3
  else if 10 ≤ hexes_moved ∧ hexes_moved ≤ 17 then 4
  else if 18 ≤ hexes_moved ∧ hexes_moved ≤ 24 then 5
  else if 25 ≤ hexes_moved ∧ hexes_moved ≤ 99 then 6
  else 6

/-- weapons.py `Weapon` (frozen dataclass); `tonnage` is a Python float
holding halves, modelled as `ℚ`. -/
structure Weapon where
  name : String
  damage : Int
  heat : Int
  min_range : Int
  short_range : Int
  medium_range : Int
  long_range : Int
  ammo_per_ton : Option Int
  cluster_size : Int := 0
  damage_per_missile : Int := 0
  is_streak : Bool := false
  is_ultra : Bool := false
  is_lb_x : Bool := false
  target_heat : Int := 0
  tonnage : ℚ := 0
  crit_slots : Int := 1
deriving DecidableEq

def SMALL_LASER : Weapon :=
  { name := "Small Laser", damage := 3, heat := 1, min_range := 0,
    short_range := 1, medium_range := 2, long_range := 3,
    ammo_per_ton := none, tonnage := (1 : ℚ) / 2 }

def MEDIUM_LASER : Weapon :=
  { name := "Medium Laser", damage := 5, heat := 3, min_range := 0,
    short_range := 3, medium_range := 6, long_range := 9,
    ammo_per_ton := none, tonnage := 1 }

def LARGE_LASER : Weapon :=
  { name := "Large Laser", damage := 8, heat := 8, min_range := 0,
    short_range := 5, medium_range := 10, long_range := 15,
    ammo_per_ton := none, tonnage := 5, crit_slots := 2 }

def PPC : Weapon :=
  { name := "PPC", damage := 10, heat := 10, min_range := 3,
    short_range := 6, medium_range := 12, long_range := 18,
    ammo_per_ton := none, tonnage := 7, crit_slots := 3 }

def ER_LARGE_LASER : Weapon :=
  { name := "ER Large Laser", damage := 8, heat := 12, min_range := 0,
    short_range := 7, medium_range := 14, long_range := 19,
    ammo_per_ton := none, tonnage := 5, crit_slots := 2 }

def ER_PPC : Weapon :=
  { name := "ER PPC", damage := 10, heat := 15, min_range := 0,
    short_range := 7, medium_range := 14, long_range := 23,
    ammo_per_ton := none, tonnage := 7, crit_slots := 3 }

def SMALL_PULSE_LASER : Weapon :=
  { name := "Small Pulse Laser", damage := 3, heat := 2, min_range := 0,
    short_range := 1, medium_range := 2, long_range := 3,
    ammo_per_ton := none, tonnage := 1 }

def MEDIUM_PULSE_LASER : Weapon :=
  { name := "Medium Pulse Laser", damage := 6, heat := 4, min_range := 0,
    short_range := 2, medium_range := 4, long_range := 6,
    ammo_per_ton := none, tonnage := 2 }

def LARGE_PULSE_LASER : Weapon :=
  { name := "Large Pulse Laser", damage := 9, heat := 10, min_range := 0,
    short_range := 3, medium_range := 7, long_range := 10,
    ammo_per_ton := none, tonnage := 7, crit_slots := 2 }

def FLAMER : Weapon :=
  { name := "Flamer", damage := 2, heat := 3, min_range := 0,
    short_range := 1, medium_range := 2, long_range := 3,
    ammo_per_ton := none, target_heat := 2, tonnage := 1 }

def AC2 : Weapon :=
  { name := "AC/2", damage := 2, heat := 1, min_range := 4,
    short_range := 8, medium_range := 16, long_range := 24,
    ammo_per_ton := some 45, tonnage := 6 }

def AC5 : Weapon :=
  { name := "AC/5", damage := 5, heat := 1, min_range := 3,
    short_range := 6, medium_range := 12, long_range := 18,
    ammo_per_ton := some 20, tonnage := 8, crit_slots := 4 }

def AC10 : Weapon :=
  { name := "AC/10", damage := 10, heat := 3, min_range := 0,
    short_range := 5, medium_range := 10, long_range := 15,
    ammo_per_ton := some 10, tonnage := 12, crit_slots := 7 }

def AC20 : Weapon :=
  { name := "AC/20", damage := 20, heat := 7, min_range := 0,
    short_range := 3, medium_range := 6, long_range := 9,
    ammo_per_ton := some 5, tonnage := 14, crit_slots := 10 }

def ULTRA_AC5 : Weapon :=
  { name := "Ultra AC/5", damage := 5, heat := 1, min_range := 2,
    short_range := 6, medium_range := 12, long_range := 18,
    ammo_per_ton := some 20, is_ultra := true, tonnage := 9, crit_slots := 5 }

def LBX_AC10 : Weapon :=
  { name := "LB 10-X AC", damage := 10, heat := 2, min_range := 0,
    short_range := 6, medium_range := 12, long_range := 18,
    ammo_per_ton := some 10, is_lb_x := true, cluster_size := 10,
    damage_per_missile := 1, tonnage := 11, crit_slots := 6 }

def MACHINE_GUN : Weapon :=
  { name := "Machine Gun", damage := 2, heat := 0, min_range := 0,
    short_range := 1, medium_range := 2, long_range := 3,
    ammo_per_ton := some 200, tonnage := (1 : ℚ) / 2 }

def SRM2 : Weapon :=
  { name := "SRM-2", damage := 2, heat := 2, min_range := 0,
    short_range := 3, medium_range := 6, long_range := 9,
    ammo_per_ton := some 50, cluster_size := 2, damage_per_missile := 2,
    tonnage := 1 }

def SRM4 : Weapon :=
  { name := "SRM-4", damage := 2, heat := 3, min_range := 0,
    short_range := 3, medium_range := 6, long_range := 9,
    ammo_per_ton := some 25, cluster_size := 4, damage_per_missile := 2,
    tonnage := 2 }

def SRM6 : Weapon :=
  { name := "SRM-6", damage := 2, heat := 4, min_range := 0,
    short_range := 3, medium_range := 6, long_range := 9,
    ammo_per_ton := some 15, cluster_size := 6, damage_per_missile := 2,
    tonnage := 3, crit_slots := 2 }

def LRM5 : Weapon :=
  { name := "LRM-5", damage := 1, heat := 2, min_range := 6,
    short_range := 7, medium_range := 14, long_range := 21,
    ammo_per_ton := some 24, cluster_size := 5, damage_per_missile := 1,
    tonnage := 2 }

def LRM10 : Weapon :=
  { name := "LRM-10", damage := 1, heat := 4, min_range := 6,
    short_range := 7, medium_range := 14, long_range := 21,
    ammo_per_ton := some 12, cluster_size := 10, damage_per_missile := 1,
    tonnage := 5, crit_slots := 2 }

def LRM15 : Weapon :=
  { name := "LRM-15", damage := 1, heat := 5, min_range := 6,
    short_range := 7, medium_range := 14, long_range := 21,
    ammo_per_ton := some 8, cluster_size := 15, damage_per_missile := 1,
    tonnage := 7, crit_slots := 3 }

def LRM20 : Weapon :=
  { name := "LRM-20", damage := 1, heat := 6, min_range := 6,
    short_range := 7, medium_range := 14, long_range := 21,
    ammo_per_ton := some 6, cluster_size := 20, damage_per_missile := 1,
    tonnage := 10, crit_slots := 5 }

def STREAK_SRM2 : Weapon :=
  { name := "Streak SRM-2", damage := 2, heat := 2, min_range := 0,
    short_range := 3, medium_range := 6, long_range := 9,
    ammo_per_ton := some 50, cluster_size := 2, damage_per_missile := 2,
    is_streak := true, tonnage := (3 : ℚ) / 2 }

def STREAK_SRM4 : Weapon :=
  { name := "Streak SRM-4", damage := 2, heat := 3, min_range := 0,
    short_range := 3, medium_range := 6, long_range := 9,
    ammo_per_ton := some 25, cluster_size := 4, damage_per_missile := 2,
    is_streak := true, tonnage := 3 }

def STREAK_SRM6 : Weapon :=
  { name := "Streak SRM-6", damage := 2, heat := 4, min_range := 0,
    short_range := 3, medium_range := 6, long_range := 9,
    ammo_per_ton := some 15, cluster_size := 6, damage_per_missile := 2,
    is_streak := true, tonnage := (9 : ℚ) / 2, crit_slots := 2 }

/-- weapons.py `WEAPON_DB` (the dict's values, in insertion order). -/
def WEAPON_DB : List Weapon :=
  [SMALL_LASER, MEDIUM_LASER, LARGE_LASER, PPC,
   ER_LARGE_LASER, ER_PPC,
   SMALL_PULSE_LASER, MEDIUM_PULSE_LASER, LARGE_PULSE_LASER,
   FLAMER,
   AC2, AC5, AC10, AC20,
   ULTRA_AC5, LBX_AC10, MACHINE_GUN,
   SRM2, SRM4, SRM6,
   LRM5, LRM10, LRM15, LRM20,
   STREAK_SRM2, STREAK_SRM4, STREAK_SRM6]

/-- mech.py `MountedWeapon` (the engine never relies on the
`__post_init__` ammo default in the paths modelled here; units are built
with their ammo made explicit). -/
structure MountedWeapon where
  weapon : Weapon
  location : String
  ammo_remaining : Option Int := none
  destroyed : Bool := false
deriving DecidableEq

/-- mech.py `Location`. -/
structure Location where
  name : String
  max_armor : Int
  current_armor : Int
  rear_max_armor : Int
  rear_current_armor : Int
  max_structure : Int
  current_structure : Int
  destroyed : Bool := false
  crittable_slots : List String := []
  has_case : Bool := false
deriving DecidableEq

/-- mech.py `Location.transfer_to`. -/
def Location.transfer_to (l : Location) : Option String := TRANSFER_MAP l.name

/-- mech.py `Mech` (metadata block omitted: it never feeds combat). -/
structure Mech where
  name : String
  tonnage : Int
  walk_mp : Int
  run_mp : Int
  jump_mp : Int
  gunnery : Int
  piloting : Int
  locations : List (String × Location)
  weapons : List MountedWeapon
  heat_sinks : Int
  double_heat_sinks : Bool
  engine_type : String
  current_heat : Int := 0
  active : Bool := true
  movement_mode : String := "stand"
  hexes_moved : Int := 0
deriving DecidableEq

/-- `self.locations[loc_id]` read access (none models KeyError). -/
def lookupLoc (m : Mech) (locId : String) : Option Location :=
  (m.locations.find? (fun p => p.1 == locId)).map Prod.snd

/-- In-place mutation of one entry of the locations dict. -/
def setLoc (m : Mech) (locId : String) (l : Location) : Mech :=
  { m with locations := m.locations.map (fun p => if p.1 == locId then (p.1, l) else p) }

/-- mech.py `Mech.is_dead`. -/
def Mech.is_dead (m : Mech) : Bool :=
  if !m.active then true
  else
    let destroyedAt := fun id =>
      match lookupLoc m id with
      | some l => l.destroyed
      | none => false
    if destroyedAt "CT" then true
    else if destroyedAt "HD" then true
    else if m.engine_type == "xl" && (destroyedAt "LT" || destroyedAt "RT") then true
    else false

/-- mech.py `Mech.total_armor`. -/
def Mech.total_armor (m : Mech) : Int :=
  m.locations.foldl (fun acc p => acc + p.2.current_armor + p.2.rear_current_armor) 0

/-- mech.py `Mech.total_structure`. -/
def Mech.total_structure (m : Mech) : Int :=
  m.locations.foldl (fun acc p => acc + p.2.current_structure) 0

/-- mech.py `Mech.total_hp`. -/
def Mech.total_hp (m : Mech) : Int := m.total_armor + m.total_structure

/-- mech.py `Mech.max_total_hp`. -/
def Mech.max_total_hp (m : Mech) : Int :=
  m.locations.foldl
    (fun acc p => acc + p.2.max_armor + p.2.rear_max_armor + p.2.max_structure) 0

/-- Python truthiness test `mw.ammo_remaining and mw.ammo_remaining > 0`. -/
def ammoPositive : Option Int → Bool
  | none => false
  | some a => decide (0 < a)

/-- heat.py `calculate_heat_generated`. -/
def calculate_heat_generated (m : Mech) (weapons_fired : List MountedWeapon) : Int :=
  let heat : Int :=
    if m.movement_mode == "walk" then 1
    else if m.movement_mode == "run" then 2
    else if m.movement_mode == "jump" then max m.jump_mp 3
    else 0
  weapons_fired.foldl
    (fun acc mw =>
      if !mw.destroyed then
        acc + mw.weapon.heat + (if mw.weapon.is_ultra then mw.weapon.heat else 0)
      else acc) heat

/-- heat.py `calculate_heat_dissipation` (takes the mech only; the extra
`heat_factor` argument passed by simulator.py is a call-arity error there). -/
def calculate_heat_dissipation (m : Mech) : Int :=
  m.heat_sinks * (if m.double_heat_sinks then 2 else 1)

/-- heat.py `get_heat_mp_penalty`, translated literally: the early return
makes the five-threshold sum below it reachable only for heat below 9. -/
def get_heat_mp_penalty (current_heat : Int) : Int :=
  if current_heat ≥ 9 then 4
  else
    (if current_heat ≥ 5 then 1 else 0) + (if current_heat ≥ 10 then 1 else 0) +
    (if current_heat ≥ 15 then 1 else 0) + (if current_heat ≥ 20 then 1 else 0) +
    (if current_heat ≥ 25 then 1 else 0)

/-- combat.py `get_range_modifier` (the source's local alias
`w = weapon.weapon` is inlined). -/
def get_range_modifier (weapon : MountedWeapon) (distance : Int) : Option Int :=
  if distance < weapon.weapon.min_range then some (weapon.weapon.min_range - distance)
  else if distance ≤ weapon.weapon.short_range then some 0
  else if distance ≤ weapon.weapon.medium_range then some 2
  else if distance ≤ weapon.weapon.long_range then some 4
  else none

/-- combat.py `get_attacker_movement_modifier`. -/
def get_attacker_movement_modifier (movement_mode : String) : Int :=
  if movement_mode == "stand" then 0
  else if movement_mode == "walk" then 1
  else if movement_mode == "run" then 2
  else if movement_mode == "jump" then 3
  else 0

/-- combat.py `get_heat_to_hit_modifier`. -/
def get_heat_to_hit_modifier (current_heat : Int) : Int :=
  if current_heat ≥ 24 then 4
  else if current_heat ≥ 17 then 3
  else if current_heat ≥ 13 then 2
  else if current_heat ≥ 8 then 1
  else 0

/-- combat.py `calculate_target_number` (`"Pulse" in name` is a substring
test, rendered via `splitOn`). -/
def calculate_target_number (attacker : Mech) (weapon : MountedWeapon)
    (target : Mech) (distance : Int) (terrain_modifier : Int) : Option Int :=
  match get_range_modifier weapon distance with
  | none => none
  | some range_mod =>
    let tn := attacker.gunnery
      + get_attacker_movement_modifier attacker.movement_mode
      + get_target_movement_modifier target.hexes_moved
      + range_mod
      + get_heat_to_hit_modifier attacker.current_heat
      + terrain_modifier
    some (if (weapon.weapon.name.splitOn "Pulse").length > 1 then tn - 2 else tn)

/-- Destroy every weapon mounted in a location (mech.py, the loop
`for mw in self.weapons: if mw.location == location_id: mw.destroyed = True`). -/
def destroyWeaponsAt (ws : List MountedWeapon) (locId : String) : List MountedWeapon :=
  ws.map (fun mw => if mw.location == locId then { mw with destroyed := true } else mw)

/-- mech.py `_apply_crits`, the per-crit weapon scan: mark the first
non-destroyed mounted weapon in the location whose name matches the hit
slot as destroyed, and report whether it occupied more than one crit slot
(then the caller wipes that weapon's remaining slots). -/
def critWeaponHit : List MountedWeapon → String → String → List MountedWeapon × Bool
  | [], _, _ => ([], false)
  | mw :: rest, locId, hitItem =>
    if mw.location == locId && mw.weapon.name == hitItem && !mw.destroyed then
      ({ mw with destroyed := true } :: rest, decide (1 < mw.weapon.crit_slots))
    else
      let (rest1, b) := critWeaponHit rest locId hitItem
      (mw :: rest1, b)

/-- mech.py `_apply_crits`, the pick-again-while-destroyed slot selection:
`random.randint(0, len(slots)-1)` retried while the drawn slot is already
"DESTROYED".  The source's `while` has no bound; the fuel argument makes
each retry explicit, and `none` means the loop has not terminated within
`fuel` retries. -/
def pickSlot : Nat → List String → Rng → Option (Nat × Rng)
  | 0, _, _ => none
  | fuel + 1, slots, rng =>
    let (v, rng1) := randint 0 ((slots.length : Int) - 1) rng
    let idx := v.toNat
    if slots.getD idx "" == "DESTROYED" then pickSlot fuel slots rng1
    else some (idx, rng1)

/-- mech.py `_ammo_explosion`, the weapon search: the first mounted weapon
in the location with positive ammo whose name matches the ammo slot yields
the explosion magnitude and has its ammo zeroed. -/
def explosionSearch : List MountedWeapon → String → String → Int × List MountedWeapon
  | [], _, _ => (0, [])
  | mw :: rest, locId, ammoSlot =>
    if mw.location == locId && ammoPositive mw.ammo_remaining &&
        (ammoSlot == "Ammo " ++ mw.weapon.name) then
      let dmg :=
        match mw.ammo_remaining with
        | some a =>
          if mw.weapon.cluster_size > 0 then
            a * mw.weapon.damage_per_missile * mw.weapon.cluster_size
          else a * mw.weapon.damage
        | none => 0
      (dmg, { mw with ammo_remaining := some 0 } :: rest)
    else
      let (d, rest1) := explosionSearch rest locId ammoSlot
      (d, mw :: rest1)

/-- Requests of the mutually recursive damage pipeline of mech.py:
`dmg` is `Mech.apply_damage`, `crits` the loop body of `Mech._apply_crits`
(iterations remaining), `boom` is `Mech._ammo_explosion`. -/
inductive Req where
  | dmg (locId : String) (damage : Int) (isRear : Bool)
  | crits (locId : String) (iters : Nat)
  | boom (locId : String) (ammoSlot : String)

/-- The damage pipeline of mech.py as one fuel-indexed dispatcher.  Every
recursive call decrements the fuel; `.error "OutOfFuel"` marks exhaustion
and `.error "KeyError"` a failed `self.locations[...]` lookup.  Each branch
is the translation of the corresponding method (see `apply_damage`,
`_apply_crits`, `_ammo_explosion` below for the source signatures). -/
def pipeline : Nat → Mech → Req → Rng → Except String (Mech × Rng)
  | 0, _, _, _ => .error "OutOfFuel"
  | fuel + 1, m, .dmg locId damage isRear, rng =>
    match lookupLoc m locId with
    | none => .error "KeyError"
    | some loc =>
      if loc.destroyed then
        match loc.transfer_to with
        | some t => pipeline fuel m (.dmg t damage false) rng
        | none => .ok (m, rng)
      else
        match (if isRear && REAR_ARMOR_LOCATIONS.contains locId then
            if loc.rear_current_armor > 0 then
              ({ loc with rear_current_armor :=
                    loc.rear_current_armor - min loc.rear_current_armor damage },
               damage - min loc.rear_current_armor damage)
            else (loc, damage)
          else
            if loc.current_armor > 0 then
              ({ loc with current_armor :=
                    loc.current_armor - min loc.current_armor damage },
               damage - min loc.current_armor damage)
            else (loc, damage) : Location × Int) with
        | (loc1, dmg1) =>
        let m1 := setLoc m locId loc1
        if dmg1 ≤ 0 then .ok (m1, rng)
        else
          let structure_absorbed := min loc1.current_structure dmg1
          let loc2 := { loc1 with current_structure := loc1.current_structure - structure_absorbed }
          let dmg2 := dmg1 - structure_absorbed
          let m2 := setLoc m1 locId loc2
          let critStep : Except String (Mech × Rng) :=
            if structure_absorbed > 0 ∧ loc2.current_structure > 0 then
              let (v, rngA) := roll_2d6 rng
              let num_crits := CRIT_TABLE v
              if num_crits > 0 then
                -- entry check of `_apply_crits` inlined at its call site
                if (loc2.crittable_slots.filter (fun s => s ≠ "DESTROYED")).isEmpty then
                  .ok (m2, rngA)
                else pipeline fuel m2 (.crits locId num_crits.toNat) rngA
              else .ok (m2, rngA)
            else .ok (m2, rng)
          match critStep with
          | .error e => .error e
          | .ok (m3, rng3) =>
            -- the source re-reads the (mutated) location object here
            match lookupLoc m3 locId with
            | none => .error "KeyError"
            | some locNow =>
              if locNow.current_structure ≤ 0 then
                let m4 := setLoc m3 locId { locNow with destroyed := true }
                let m5 := { m4 with weapons := destroyWeaponsAt m4.weapons locId }
                if m5.is_dead then .ok ({ m5 with active := false }, rng3)
                else if dmg2 > 0 then
                  match locNow.transfer_to with
                  | some t => pipeline fuel m5 (.dmg t dmg2 false) rng3
                  | none => .ok (m5, rng3)
                else .ok (m5, rng3)
              else .ok (m3, rng3)
  | fuel + 1, m, .crits locId iters, rng =>
    match iters with
    | 0 => .ok (m, rng)
    | k + 1 =>
      match lookupLoc m locId with
      | none => .error "KeyError"
      | some loc =>
        let slots := loc.crittable_slots
        if (slots.filter (fun s => s ≠ "DESTROYED")).isEmpty then .ok (m, rng)
        else
          match pickSlot (fuel + 1) slots rng with
          | none => .error "OutOfFuel"
          | some (idx, rng1) =>
            let hit_item := slots.getD idx ""
            let slots1 := slots.set idx "DESTROYED"
            match critWeaponHit m.weapons locId hit_item with
            | (ws1, multi) =>
            let slots2 :=
              if multi then slots1.map (fun s => if s == hit_item then "DESTROYED" else s)
              else slots1
            let m1 := setLoc m locId { loc with crittable_slots := slots2 }
            let m2 := { m1 with weapons := ws1 }
            -- (the source's "Engine" branch computes a count it then
            -- discards: it has no effect on the state)
            let boomStep : Except String (Mech × Rng) :=
              if hit_item.startsWith "Ammo" then pipeline fuel m2 (.boom locId hit_item) rng1
              else .ok (m2, rng1)
            match boomStep with
            | .error e => .error e
            | .ok (m3, rng2) => pipeline fuel m3 (.crits locId k) rng2
  | fuel + 1, m, .boom locId ammoSlot, rng =>
    match lookupLoc m locId with
    | none => .error "KeyError"
    | some loc =>
      match explosionSearch m.weapons locId ammoSlot with
      | (found_damage, ws1) =>
      let m1 := { m with weapons := ws1 }
      let ammo_damage := if found_damage ≤ 0 then 20 else found_damage
      if loc.has_case then
        let loc1 := { loc with
          current_structure := 0
          current_armor := 0
          rear_current_armor := 0
          destroyed := true }
        let m2 := setLoc m1 locId loc1
        .ok ({ m2 with weapons := destroyWeaponsAt m2.weapons locId }, rng)
      else
        pipeline fuel m1 (.dmg locId ammo_damage false) rng

/-- mech.py `Mech.apply_damage(location_id, damage, is_rear)`. -/
def apply_damage (fuel : Nat) (m : Mech) (locId : String) (damage : Int)
    (isRear : Bool) (rng : Rng) : Except String (Mech × Rng) :=
  pipeline fuel m (.dmg locId damage isRear) rng

/-- mech.py `Mech._apply_crits(location_id, num_crits)`: the entry
availability check followed by the crit loop. -/
def _apply_crits (fuel : Nat) (m : Mech) (locId : String) (num_crits : Int)
    (rng : Rng) : Except String (Mech × Rng) :=
  match lookupLoc m locId with
  | none => .error "KeyError"
  | some loc =>
    if (loc.crittable_slots.filter (fun s => s ≠ "DESTROYED")).isEmpty then .ok (m, rng)
    else pipeline fuel m (.crits locId num_crits.toNat) rng

/-- mech.py `Mech._ammo_explosion(location_id, ammo_slot)`. -/
def _ammo_explosion (fuel : Nat) (m : Mech) (locId : String) (ammoSlot : String)
    (rng : Rng) : Except String (Mech × Rng) :=
  pipeline fuel m (.boom locId ammoSlot) rng

/-- heat.py `apply_heat_phase`, the trailing ammo-explosion risk check
(the function body from the `current_heat >= 18` test on): on a roll of 4
or more one uniformly chosen ammo-carrying weapon explodes. -/
def heatAmmoCheck (fuel : Nat) (m : Mech) (rng : Rng) : Except String (Mech × Rng) :=
  if m.current_heat ≥ 18 then
    if m.weapons.any (fun mw => ammoPositive mw.ammo_remaining) then
      let (roll, rng1) := roll_2d6 rng
      if roll ≥ 4 then
        let ammo_weapons := m.weapons.filter (fun mw => ammoPositive mw.ammo_remaining)
        match ammo_weapons with
        | [] => .ok (m, rng1)
        | w :: ws =>
          -- `random.choice`: one uniform index draw
          let (v, rng2) := randint 0 (((w :: ws).length : Int) - 1) rng1
          let victim := (w :: ws).getD v.toNat w
          _ammo_explosion fuel m victim.location ("Ammo " ++ victim.weapon.name) rng2
      else .ok (m, rng1)
    else .ok (m, rng)
  else .ok (m, rng)

/-- heat.py `apply_heat_phase(mech, weapons_fired, debug)`: update heat,
then the shutdown checks — the source marks the unit inactive when the
roll MEETS the threshold (`roll >= 4` at heat 25+, `>= 6` at 19+, `>= 8`
at 14+) — then the ammo-explosion risk check. -/
def apply_heat_phase (fuel : Nat) (m : Mech) (weapons_fired : List MountedWeapon)
    (rng : Rng) : Except String (Mech × Rng) :=
  let generated := calculate_heat_generated m weapons_fired
  let dissipated := calculate_heat_dissipation m
  let heat1 := max 0 (m.current_heat + generated - dissipated)
  let m1 := { m with current_heat := heat1 }
  if heat1 ≥ 30 then .ok ({ m1 with active := false }, rng)
  else if heat1 ≥ 25 then
    let (roll, rng1) := roll_2d6 rng
    if roll ≥ 4 then .ok ({ m1 with active := false }, rng1)
    else heatAmmoCheck fuel m1 rng1
  else if heat1 ≥ 19 then
    let (roll, rng1) := roll_2d6 rng
    if roll ≥ 6 then .ok ({ m1 with active := false }, rng1)
    else heatAmmoCheck fuel m1 rng1
  else if heat1 ≥ 14 then
    let (roll, rng1) := roll_2d6 rng
    if roll ≥ 8 then .ok ({ m1 with active := false }, rng1)
    else heatAmmoCheck fuel m1 rng1
  else heatAmmoCheck fuel m1 rng

/-- Replace the mounted weapon at index `i` (object mutation in the
source; weapons are addressed by their stable position in the list). -/
def setW (m : Mech) (i : Nat) (mw : MountedWeapon) : Mech :=
  { m with weapons := m.weapons.set i mw }

/-- combat.py `resolve_attack`, the cluster sub-munition loop: each
missile rolls its own hit location, damage is counted before application,
and the loop breaks once the target goes inactive. -/
def missilesLoop (fuel : Nat) : Nat → Mech → String → Int → Rng →
    Except String (Mech × Int × Rng)
  | 0, target, _, _, rng => .ok (target, 0, rng)
  | k + 1, target, direction, dmg_per, rng =>
    let (loc, rng1) := roll_hit_location direction rng
    match apply_damage fuel target loc dmg_per false rng1 with
    | .error e => .error e
    | .ok (t1, rng2) =>
      if !t1.active then .ok (t1, dmg_per, rng2)
      else
        match missilesLoop fuel k t1 direction dmg_per rng2 with
        | .error e => .error e
        | .ok (t2, total, rng3) => .ok (t2, dmg_per + total, rng3)

/-- combat.py `resolve_attack(attacker, weapon, target, distance,
direction, terrain_modifier)`: the weapon is addressed by its index in
`attacker.weapons`; the result carries the mutated attacker and target
and the damage dealt (the other `AttackResult` fields feed only logging). -/
def resolve_attack (fuel : Nat) (attacker : Mech) (wIdx : Nat) (target : Mech)
    (distance : Int) (direction : String) (terrain_modifier : Int) (rng : Rng) :
    Except String (Mech × Mech × Int × Rng) :=
  match attacker.weapons.get? wIdx with
  | none => .error "KeyError"
  | some weapon =>
    if weapon.destroyed then .ok (attacker, target, 0, rng)
    else if (match weapon.ammo_remaining with | some a => decide (a ≤ 0) | none => false) then
      .ok (attacker, target, 0, rng)
    else
      match calculate_target_number attacker weapon target distance terrain_modifier with
      | none => .ok (attacker, target, 0, rng)
      | some tn =>
        let is_streak := weapon.weapon.is_streak
        let (roll, rng1) := roll_2d6 rng
        let hit := roll ≥ tn ∧ roll ≠ 2
        if ¬ hit then
          if ¬ is_streak ∧ weapon.ammo_remaining.isSome then
            .ok (setW attacker wIdx
                   { weapon with ammo_remaining := weapon.ammo_remaining.map (· - 1) },
                 target, 0, rng1)
          else .ok (attacker, target, 0, rng1)
        else
          let weapon1 := { weapon with ammo_remaining := weapon.ammo_remaining.map (· - 1) }
          let attacker1 := setW attacker wIdx weapon1
          let w := weapon.weapon
          let clusterPart : Except String (Mech × Int × Rng) :=
            if w.cluster_size > 0 then
              let mh :=
                if is_streak then (w.cluster_size, rng1)
                else roll_cluster_hits w.cluster_size rng1
              missilesLoop fuel mh.1.toNat target direction w.damage_per_missile mh.2
            else
              let (loc, rng2) := roll_hit_location direction rng1
              match apply_damage fuel target loc w.damage false rng2 with
              | .error e => .error e
              | .ok (t1, rng3) => .ok (t1, w.damage, rng3)
          match clusterPart with
          | .error e => .error e
          | .ok (target1, total_damage, rngU) =>
            -- Ultra AC second shot (reads the already-decremented ammo)
            if w.is_ultra ∧ ammoPositive weapon1.ammo_remaining then
              let (jam_roll, rngU1) := roll_2d6 rngU
              if jam_roll = 2 then
                .ok (setW attacker1 wIdx { weapon1 with destroyed := true },
                     target1, total_damage, rngU1)
              else
                let (roll2, rngU2) := roll_2d6 rngU1
                let hit2 := roll2 ≥ tn ∧ roll2 ≠ 2
                let weapon2 := { weapon1 with ammo_remaining := weapon1.ammo_remaining.map (· - 1) }
                let attacker2 := setW attacker1 wIdx weapon2
                if hit2 then
                  let (loc2, rngU3) := roll_hit_location direction rngU2
                  match apply_damage fuel target1 loc2 w.damage false rngU3 with
                  | .error e => .error e
                  | .ok (t2, rng4) => .ok (attacker2, t2, total_damage + w.damage, rng4)
                else .ok (attacker2, target1, total_damage, rngU2)
            else .ok (attacker1, target1, total_damage, rngU)

/-- combat.py `resolve_all_attacks` with an explicit firing list (the only
way the fight loop calls it): resolve strictly in order, stopping once the
target is inactive; the third component sums the damage dealt. -/
def resolve_all_attacks (fuel : Nat) (attacker : Mech) (target : Mech)
    (distance : Int) (direction : String) (weapons_to_fire : List Nat)
    (terrain_modifier : Int) (rng : Rng) : Except String (Mech × Mech × Int × Rng) :=
  match weapons_to_fire with
  | [] => .ok (attacker, target, 0, rng)
  | i :: rest =>
    if !target.active then .ok (attacker, target, 0, rng)
    else
      match resolve_attack fuel attacker i target distance direction terrain_modifier rng with
      | .error e => .error e
      | .ok (a1, t1, d, rng1) =>
        match resolve_all_attacks fuel a1 t1 distance direction rest terrain_modifier rng1 with
        | .error e => .error e
        | .ok (a2, t2, dRest, rng2) => .ok (a2, t2, d + dRest, rng2)

/-- simulator.py `select_weapons_to_fire(mech, distance, heat_factor)`.
After collecting the available weapons the source sorts them by
damage-per-heat and then evaluates
`calculate_heat_dissipation(mech, heat_factor)`; heat.py's
`calculate_heat_dissipation` takes a single parameter, so whenever any
weapon is available that call raises TypeError and the greedy heat-budget
fill below it is unreachable. -/
def select_weapons_to_fire (m : Mech) (distance : Int) (heat_factor : ℚ) :
    Except String (List Nat) :=
  let available := (List.range m.weapons.length).filter (fun i =>
    match m.weapons.get? i with
    | none => false
    | some mw =>
      !mw.destroyed &&
      (match mw.ammo_remaining with | some a => decide (0 < a) | none => true) &&
      (get_range_modifier mw distance).isSome)
  if available.isEmpty then .ok []
  else .error "TypeError: calculate_heat_dissipation() takes 1 positional argument but 2 were given"

/-- simulator.py `choose_movement`. -/
def choose_movement (m : Mech) : String × Int :=
  let mp_penalty := get_heat_mp_penalty m.current_heat
  let effective_walk := max 0 (m.walk_mp - mp_penalty)
  if effective_walk ≤ 0 then ("stand", 0) else ("walk", effective_walk)

/-- simulator.py `heat_neutral_dpr(mech, distance, heat_factor)`.  When the
total weapon heat is positive the source evaluates
`calculate_heat_dissipation(mech, heat_factor)` — a call-arity TypeError —
so the proportional damage scaling below that line is unreachable. -/
def heat_neutral_dpr (m : Mech) (distance : Int) (heat_factor : ℚ) :
    Except String ℚ :=
  let totals := m.weapons.foldl
    (fun (acc : Int × Int) mw =>
      if mw.destroyed then acc
      else if (match mw.ammo_remaining with | some a => decide (a ≤ 0) | none => false) then acc
      else if (get_range_modifier mw distance).isNone then acc
      else (acc.1 + mw.weapon.damage *
              (if mw.weapon.cluster_size = 0 then 1 else mw.weapon.cluster_size),
            acc.2 + mw.weapon.heat)) (0, 0)
  if totals.2 ≤ 0 then .ok (totals.1 : ℚ)
  else .error "TypeError: calculate_heat_dissipation() takes 1 positional argument but 2 were given"

/-- simulator.py `optimal_movement`: the higher-DPR side walks (kites),
the other runs (closes); on exactly equal DPR both walk; returns
(a_mode, a_hexes, b_mode, b_hexes, new_distance). -/
def optimal_movement (mech_a mech_b : Mech) (current_distance : Int)
    (heat_factor : ℚ) : Except String (String × Int × String × Int × Int) :=
  match heat_neutral_dpr mech_a current_distance heat_factor with
  | .error e => .error e
  | .ok dpr_a =>
    match heat_neutral_dpr mech_b current_distance heat_factor with
    | .error e => .error e
    | .ok dpr_b =>
      let mp_pen_a := get_heat_mp_penalty mech_a.current_heat
      let mp_pen_b := get_heat_mp_penalty mech_b.current_heat
      let walk_a := max 0 (mech_a.walk_mp - mp_pen_a)
      let run_a := max 0 (mech_a.run_mp - mp_pen_a)
      let walk_b := max 0 (mech_b.walk_mp - mp_pen_b)
      let run_b := max 0 (mech_b.run_mp - mp_pen_b)
      if dpr_a > dpr_b then
        .ok ("walk", walk_a, "run", run_b, max 1 (current_distance - (run_b - walk_a)))
      else if dpr_b > dpr_a then
        .ok ("run", run_a, "walk", walk_b, max 1 (current_distance - (run_a - walk_b)))
      else
        .ok ("walk", walk_a, "walk", walk_b, max 1 (current_distance - (walk_a + walk_b)))

/-- simulator.py `FightResult` (the debug log is omitted). -/
structure FightResult where
  winner : Option String
  winner_name : Option String
  rounds : Int
  mech_a_remaining_hp : Int
  mech_b_remaining_hp : Int
  mech_a_damage_dealt : Int
  mech_b_damage_dealt : Int
deriving DecidableEq

/-- The round loop of simulator.py `fight` (debug branches omitted).  The
heat phase is the source lines
`apply_heat_phase(mech, weapons, debug, heat_factor)`: heat.py's
`apply_heat_phase` takes (mech, weapons_fired, debug), so the call raises
TypeError whenever it is reached, i.e. whenever the mech is still active. -/
def fight_loop (fuel : Nat) : Nat → Int → Mech → Mech → Int → Int → String →
    ℚ → Int → Int → Int → Rng → Except String (Mech × Mech × Int × Int × Int)
  | 0, _, mA, mB, _, _, _, _, aDmg, bDmg, lastRound, _ =>
    .ok (mA, mB, aDmg, bDmg, lastRound)
  | roundsLeft + 1, roundNum, mA, mB, dist, closing_rate, movement_ai,
      heat_factor, aDmg, bDmg, lastRound, rng =>
    if !mA.active || !mB.active then .ok (mA, mB, aDmg, bDmg, lastRound)
    else
      let moveStep : Except String (String × Int × String × Int × Option Int) :=
        if movement_ai == "optimal" then
          match optimal_movement mA mB dist heat_factor with
          | .error e => .error e
          | .ok (am, ah, bm, bh, nd) => .ok (am, ah, bm, bh, some nd)
        else
          let amv := choose_movement mA
          let bmv := choose_movement mB
          .ok (amv.1, amv.2, bmv.1, bmv.2, none)
      match moveStep with
      | .error e => .error e
      | .ok (a_mode, a_hexes, b_mode, b_hexes, new_dist) =>
        let mA1 := { mA with movement_mode := a_mode, hexes_moved := a_hexes }
        let mB1 := { mB with movement_mode := b_mode, hexes_moved := b_hexes }
        let dist1 := if movement_ai == "optimal" then new_dist.getD dist else dist
        match select_weapons_to_fire mA1 dist1 heat_factor with
        | .error e => .error e
        | .ok a_weapons =>
          match select_weapons_to_fire mB1 dist1 heat_factor with
          | .error e => .error e
          | .ok b_weapons =>
            match resolve_all_attacks fuel mA1 mB1 dist1 "front" a_weapons 0 rng with
            | .error e => .error e
            | .ok (mA2, mB2, aRoundDmg, rng1) =>
              match resolve_all_attacks fuel mB2 mA2 dist1 "front" b_weapons 0 rng1 with
              | .error e => .error e
              | .ok (mB3, mA3, bRoundDmg, rng2) =>
                if mA3.active then
                  .error "TypeError: apply_heat_phase() takes from 2 to 3 positional arguments but 4 were given"
                else if mB3.active then
                  .error "TypeError: apply_heat_phase() takes from 2 to 3 positional arguments but 4 were given"
                else
                  let dist2 :=
                    if movement_ai != "optimal" && closing_rate > 0 then
                      max 1 (dist1 - closing_rate)
                    else dist1
                  fight_loop fuel roundsLeft (roundNum + 1) mA3 mB3 dist2
                    closing_rate movement_ai heat_factor (aDmg + aRoundDmg)
                    (bDmg + bRoundDmg) roundNum rng2

/-- simulator.py `fight(mech_a, mech_b, distance, max_rounds, debug,
closing_rate, movement_ai, heat_factor)` with `debug=False`; the winner
determination compares Python float HP fractions, modelled over `ℚ`. -/
def fight (fuel : Nat) (mech_a mech_b : Mech) (distance : Int)
    (max_rounds : Nat) (closing_rate : Int) (movement_ai : String)
    (heat_factor : ℚ) (rng : Rng) : Except String FightResult :=
  let a_hp_start := mech_a.max_total_hp
  let b_hp_start := mech_b.max_total_hp
  match fight_loop fuel max_rounds 1 mech_a mech_b distance closing_rate
      movement_ai heat_factor 0 0 0 rng with
  | .error e => .error e
  | .ok (mA, mB, aDmg, bDmg, lastRound) =>
    let a_alive := mA.active
    let b_alive := mB.active
    let decision : Option String × Option String :=
      if a_alive && !b_alive then (some "A", some mA.name)
      else if b_alive && !a_alive then (some "B", some mB.name)
      else if !a_alive && !b_alive then (none, none)
      else
        let a_pct : ℚ := if a_hp_start = 0 then 0 else (mA.total_hp : ℚ) / (a_hp_start : ℚ)
        let b_pct : ℚ := if b_hp_start = 0 then 0 else (mB.total_hp : ℚ) / (b_hp_start : ℚ)
        if a_pct > b_pct then (some "A", some mA.name)
        else if b_pct > a_pct then (some "B", some mB.name)
        else (none, none)
    .ok { winner := decision.1, winner_name := decision.2, rounds := lastRound,
          mech_a_remaining_hp := mA.total_hp, mech_b_remaining_hp := mB.total_hp,
          mech_a_damage_dealt := aDmg, mech_b_damage_dealt := bDmg }

/-- Concrete location builder for the test units. -/
def mkLoc (nm : String) (armor rear struct : Int) (slots : List String)
    (protected_case : Bool) : Location :=
  { name := nm, max_armor := armor, current_armor := armor,
    rear_max_armor := rear, rear_current_armor := rear,
    max_structure := struct, current_structure := struct,
    crittable_slots := slots, has_case := protected_case }

/-- Concrete unit builder for the test units. -/
def mkMech (nm : String) (locs : List (String × Location))
    (ws : List MountedWeapon) (heat0 : Int) (sinks : Int) (engine : String)
    (wmp rmp : Int) : Mech :=
  { name := nm, tonnage := 50, walk_mp := wmp, run_mp := rmp, jump_mp := 0,
    gunnery := 4, piloting := 5, locations := locs, weapons := ws,
    heat_sinks := sinks, double_heat_sinks := false, engine_type := engine,
    current_heat := heat0 }

def fightMechA : Mech :=
  mkMech "UnitA" [("CT", mkLoc "CT" 5 0 5 [] false)] [] 0 10 "standard" 4 6

def fightMechB : Mech :=
  mkMech "UnitB" [("CT", mkLoc "CT" 6 0 6 [] false)] [] 0 10 "standard" 4 6

/-- The heat value after the generate/dissipate/floor update at the top of
heat.py `apply_heat_phase`. -/
def updatedHeat (m : Mech) (wf : List MountedWeapon) : Int :=
  max 0 (m.current_heat + calculate_heat_generated m wf - calculate_heat_dissipation m)

def mC2 : Mech :=
  mkMech "HotUnit" [("CT", mkLoc "CT" 5 0 5 [] false)] [] 25 0 "standard" 4 6

def mC2w : Mech :=
  mkMech "WarmUnit" [("CT", mkLoc "CT" 5 0 5 [] false)] [] 21 0 "standard" 4 6

def seqC3 : Nat → Nat := fun n => if n ≤ 1 then 0 else 2

def mC3 : Mech :=
  mkMech "AmmoUnit" [("LT", mkLoc "LT" 3 0 4 [] true)]
    [{ weapon := MACHINE_GUN, location := "LT", ammo_remaining := some 200 }]
    18 0 "standard" 4 6

def zeroedLTLoc : Location :=
  { name := "LT", max_armor := 3, current_armor := 0, rear_max_armor := 0,
    rear_current_armor := 0, max_structure := 4, current_structure := 0,
    destroyed := true, crittable_slots := [], has_case := true }

def mC3boom : Mech :=
  { mC3 with
    locations := [("LT", zeroedLTLoc)]
    weapons := [{ weapon := MACHINE_GUN, location := "LT",
                  ammo_remaining := some 0, destroyed := true }] }

def mC3w : Mech :=
  mkMech "AmmoUnitW" [("LT", mkLoc "LT" 3 0 4 [] false)]
    [{ weapon := MACHINE_GUN, location := "LT", ammo_remaining := some 200 }]
    18 0 "standard" 4 6

def mechC5A : Mech :=
  mkMech "Kiter" [("CT", mkLoc "CT" 5 0 5 [] false)]
    [{ weapon := MACHINE_GUN, location := "RA", ammo_remaining := some 200 }]
    0 0 "standard" 8 12

def mechC5B : Mech :=
  mkMech "Charger" [("CT", mkLoc "CT" 5 0 5 [] false)] [] 0 0 "standard" 1 2

/-- The location state after its addressed armor pool and structure were
fully depleted and it was marked destroyed. -/
def depletedLoc (l : Location) (rearHit : Bool) : Location :=
  if rearHit then
    { l with rear_current_armor := 0, current_structure := 0, destroyed := true }
  else
    { l with current_armor := 0, current_structure := 0, destroyed := true }

/-- The mech state right after `locId` was destroyed by damage: the
location zeroed and marked destroyed, every weapon mounted there
destroyed. -/
def depletedMech (m : Mech) (locId : String) (l : Location) (rearHit : Bool) : Mech :=
  { setLoc m locId (depletedLoc l rearHit) with
    weapons := destroyWeaponsAt m.weapons locId }

def mC8 : Mech :=
  mkMech "StdUnit" [("CT", mkLoc "CT" 2 0 3 [] false)]
    [{ weapon := MEDIUM_LASER, location := "CT", ammo_remaining := none }]
    0 0 "standard" 4 6

def mC6 : Mech :=
  mkMech "XLUnit"
    [("LT", mkLoc "LT" 0 0 1 [] false), ("CT", mkLoc "CT" 5 0 5 [] false)]
    [] 0 0 "xl" 4 6

def deadLTLoc : Location :=
  { name := "LT", max_armor := 0, current_armor := 0, rear_max_armor := 0,
    rear_current_armor := 0, max_structure := 1, current_structure := 0,
    destroyed := true, crittable_slots := [], has_case := false }

def mC6dead : Mech :=
  { mC6 with
    locations := [("LT", deadLTLoc), ("CT", mkLoc "CT" 5 0 5 [] false)]
    active := false }

def mC6w : Mech :=
  mkMech "ArmUnit"
    [("LA", mkLoc "LA" 1 0 1 [] false), ("LT", mkLoc "LT" 4 0 4 [] false),
     ("CT", mkLoc "CT" 5 0 5 [] false)]
    [] 0 0 "standard" 4 6

def mC9 : Mech :=
  mkMech "CritUnit"
    [("LT", mkLoc "LT" 1 0 1 ["DESTROYED", "Medium Laser"] false)]
    [] 0 0 "standard" 4 6

/-- The location state after a CASE-contained ammo explosion: armor,
rear armor and structure zeroed, destroyed set. -/
def caseContainedLoc (l : Location) : Location :=
  { l with current_structure := 0, current_armor := 0, rear_current_armor := 0, destroyed := true }

def mC10 : Mech :=
  mkMech "XLCase"
    [("LT", mkLoc "LT" 2 0 3 ["Ammo SRM-6"] true), ("CT", mkLoc "CT" 5 0 5 [] false)]
    [{ weapon := SRM6, location := "LT", ammo_remaining := some 15 }]
    0 0 "xl" 4 6

/-! Section: Helper lemmas about the location dictionary -/

theorem find_map_set (xs : List (String × Location)) (locId : String)
    (l : Location) (l0 : Location)
    (h : (xs.find? (fun p => p.1 == locId)).map Prod.snd = some l0) :
    ((xs.map (fun p => if p.1 == locId then (p.1, l) else p)).find?
        (fun p => p.1 == locId)).map Prod.snd = some l := by
  induction xs with
  | nil => simp at h
  | cons p rest ih =>
    by_cases hp : p.1 = locId
    · simp [List.find?_cons_of_pos, hp]
    · rw [List.map_cons, if_neg (by simpa using hp)]
      rw [List.find?_cons_of_neg _ (by simpa using hp)] at h ⊢
      exact ih h

theorem find_map_ne (xs : List (String × Location)) (locId pId : String)
    (l : Location) (hne : pId ≠ locId) :
    ((xs.map (fun p => if p.1 == locId then (p.1, l) else p)).find?
        (fun p => p.1 == pId)).map Prod.snd =
      (xs.find? (fun p => p.1 == pId)).map Prod.snd := by
  induction xs with
  | nil => simp
  | cons p rest ih =>
    by_cases hp : p.1 = locId
    · have hppId : ¬ (p.1 = pId) := by rw [hp]; exact fun h => hne h.symm
      rw [List.map_cons, if_pos (by simpa using hp)]
      rw [List.find?_cons_of_neg _ (by simpa using hppId),
          List.find?_cons_of_neg _ (by simpa using hppId)]
      exact ih
    · rw [List.map_cons, if_neg (by simpa using hp)]
      by_cases hq : p.1 = pId
      · rw [List.find?_cons_of_pos _ (by simpa using hq),
            List.find?_cons_of_pos _ (by simpa using hq)]
      · rw [List.find?_cons_of_neg _ (by simpa using hq),
            List.find?_cons_of_neg _ (by simpa using hq)]
        exact ih

theorem map_set_set (xs : List (String × Location)) (locId : String)
    (a b : Location) :
    (xs.map (fun p => if p.1 == locId then (p.1, a) else p)).map
        (fun p => if p.1 == locId then (p.1, b) else p) =
      xs.map (fun p => if p.1 == locId then (p.1, b) else p) := by
  rw [List.map_map]
  apply List.map_congr_left
  intro p _
  by_cases hp : p.1 = locId
  · simp [Function.comp, hp]
  · simp [Function.comp, hp]

theorem lookupLoc_setLoc_self (m : Mech) (locId : String) (l0 l : Location)
    (hl : lookupLoc m locId = some l0) :
    lookupLoc (setLoc m locId l) locId = some l :=
  find_map_set m.locations locId l l0 hl

theorem lookupLoc_setLoc_ne (m : Mech) (locId p : String) (l : Location)
    (hne : p ≠ locId) :
    lookupLoc (setLoc m locId l) p = lookupLoc m p :=
  find_map_ne m.locations locId p l hne

theorem setLoc_setLoc (m : Mech) (locId : String) (a b : Location) :
    setLoc (setLoc m locId a) locId b = setLoc m locId b := by
  simp only [setLoc, map_set_set]

theorem destroyWeaponsAt_mem (ws : List MountedWeapon) (locId : String) :
    ∀ mw ∈ destroyWeaponsAt ws locId, mw.location = locId → mw.destroyed = true := by
  intro mw hmw hloc
  unfold destroyWeaponsAt at hmw
  rcases List.mem_map.mp hmw with ⟨pre, _, hpre⟩
  by_cases hp : pre.location == locId
  · rw [if_pos hp] at hpre; rw [← hpre]
  · rw [if_neg hp] at hpre
    rw [← hpre] at hloc
    simp [hloc] at hp

/-! Section: C1: the fight loop -/

/-- C1: the claim says a fight with a finite round cap always terminates
and returns a win/loss/draw with no exception escaping the fight loop.  In
the source, the heat phase calls `apply_heat_phase(mech, weapons, debug,
heat_factor)` while heat.py defines `apply_heat_phase(mech, weapons_fired,
debug)`, so the very first heat phase of any fight between two active
units raises TypeError instead of producing a FightResult: evaluating the
fight at two concrete loaded units shows the exception. -/
theorem C1_fight_raises_typeerror :
    fight 10 fightMechA fightMechB 6 50 0 "closure" 1 ⟨fun _ => 0, 0⟩ =
      .error "TypeError: apply_heat_phase() takes from 2 to 3 positional arguments but 4 were given" := by
  rfl

/-! Section: C4: the movement-point heat penalty -/

/-- C4 counterexample: the claim predicts penalty 2 at heat 10 and the
maximum 5 at heat 25 (one step per threshold 5/10/15/20/25 reached), but
the source returns early with 4 for any heat of 9 or more. -/
theorem C4_counterexample :
    get_heat_mp_penalty 10 = 4 ∧ get_heat_mp_penalty 10 ≠ 2 ∧
    get_heat_mp_penalty 25 = 4 ∧ get_heat_mp_penalty 25 ≠ 5 ∧
    get_heat_mp_penalty 9 = 4 ∧ get_heat_mp_penalty 9 ≠ 1 := by
  decide

/-- C4 amended: the movement-point penalty is 0 below heat 5, 1 from heat
5 through 8, and 4 at heat 9 and above; the cumulative 5/10/15/20/25
threshold table appears only below the early return, where heat 10 and
beyond is unreachable. -/
theorem C4_amended_mp_penalty (h : Int) :
    get_heat_mp_penalty h = if h ≥ 9 then 4 else if h ≥ 5 then 1 else 0 := by
  unfold get_heat_mp_penalty
  split_ifs <;> omega

/-! Section: C7: the range modifier -/

theorem weapon_ranges_sorted : ∀ w ∈ WEAPON_DB,
    w.min_range ≤ w.short_range ∧ w.short_range ≤ w.medium_range ∧
    w.medium_range ≤ w.long_range := by
  decide

/-- C7: for every catalog weapon the range modifier is the verbatim band
table — (min − d) inside minimum range, 0/2/4 in the short/medium/long
bands, undefined beyond long range — and it is monotonically
non-decreasing over the defined region at or past minimum range. -/
theorem C7_range_modifier (mw : MountedWeapon) (hw : mw.weapon ∈ WEAPON_DB)
    (d d1 d2 : Int) :
    (d < mw.weapon.min_range →
       get_range_modifier mw d = some (mw.weapon.min_range - d)) ∧
    (mw.weapon.min_range ≤ d → d ≤ mw.weapon.short_range →
       get_range_modifier mw d = some 0) ∧
    (mw.weapon.short_range < d → d ≤ mw.weapon.medium_range →
       get_range_modifier mw d = some 2) ∧
    (mw.weapon.medium_range < d → d ≤ mw.weapon.long_range →
       get_range_modifier mw d = some 4) ∧
    (mw.weapon.long_range < d → get_range_modifier mw d = none) ∧
    (∀ v1 v2, mw.weapon.min_range ≤ d1 → d1 ≤ d2 →
       get_range_modifier mw d1 = some v1 → get_range_modifier mw d2 = some v2 →
       v1 ≤ v2) := by
  obtain ⟨hms, hsm, hml⟩ := weapon_ranges_sorted mw.weapon hw
  unfold get_range_modifier
  refine ⟨?_, ?_, ?_, ?_, ?_, ?_⟩
  · intro hd; rw [if_pos hd]
  · intro h1 h2
    rw [if_neg (by omega), if_pos h2]
  · intro h1 h2
    rw [if_neg (by omega), if_neg (by omega), if_pos h2]
  · intro h1 h2
    rw [if_neg (by omega), if_neg (by omega), if_neg (by omega), if_pos h2]
  · intro h1
    rw [if_neg (by omega), if_neg (by omega), if_neg (by omega), if_neg (by omega)]
  · intro v1 v2 h1 h12 hv1 hv2
    split_ifs at hv1 hv2 <;> simp_all <;> omega

/-- C7 witness: the Medium Laser at distance 4 (its medium band) gets
modifier +2. -/
theorem C7_witness :
    get_range_modifier ⟨MEDIUM_LASER, "RA", none, false⟩ 4 = some 2 := by
  have h := C7_range_modifier ⟨MEDIUM_LASER, "RA", none, false⟩ (by decide) 4 4 7
  exact h.2.2.1 (by decide) (by decide)

/-! Section: C2: heat-shutdown thresholds -/

theorem heatAmmoCheck_low (fuel : Nat) (m : Mech) (rng : Rng)
    (h : m.current_heat < 18) : heatAmmoCheck fuel m rng = .ok (m, rng) := by
  unfold heatAmmoCheck
  rw [if_neg (by omega)]

theorem heatAmmoCheck_noAmmo (fuel : Nat) (m : Mech) (rng : Rng)
    (h : m.weapons.all (fun mw => !ammoPositive mw.ammo_remaining) = true) :
    heatAmmoCheck fuel m rng = .ok (m, rng) := by
  unfold heatAmmoCheck
  have hany : m.weapons.any (fun mw => ammoPositive mw.ammo_remaining) = false := by
    rw [List.any_eq_false]
    intro mw hmw
    have := List.all_eq_true.mp h mw hmw
    simpa using this
  rw [hany]
  split_ifs <;> first | rfl | contradiction

/-- C2 counterexample: the claim says that at heat in [25,30) a roll of 4
or more AVOIDS shutdown.  At updated heat 25 the code rolls 6 (≥ 4) and
the unit becomes inactive: the roll direction is reversed in the source
(`if roll >= 4: ... active = False`). -/
theorem C2_counterexample :
    roll_2d6 ⟨fun _ => 2, 0⟩ = (6, ⟨fun _ => 2, 2⟩) ∧
    apply_heat_phase 5 mC2 [] ⟨fun _ => 2, 0⟩ =
      .ok ({ mC2 with current_heat := 25, active := false }, ⟨fun _ => 2, 2⟩) :=
  ⟨rfl, rfl⟩

/-- C2 amended: after the heat update, heat ≥ 30 forces shutdown with no
roll; at heat in [25,30) the unit SHUTS DOWN exactly when the 2d6 roll is
4 or more (the claim had the direction reversed: in the source a high roll
causes the shutdown rather than avoiding it); in [19,25) the shutdown
trigger is a roll of 6 or more, in [14,19) a roll of 8 or more; below 14
no shutdown roll is made.  The thresholds are checked in the order
30/25/19/14, and a heat of exactly 29 falls in the [25,30) roll-dependent
band, never an unconditional shutdown. -/
theorem C2_amended_shutdown_thresholds (fuel : Nat) (m : Mech)
    (wf : List MountedWeapon) (rng rng1 : Rng) (r : Int)
    (hroll : roll_2d6 rng = (r, rng1)) :
    (updatedHeat m wf ≥ 30 →
      apply_heat_phase fuel m wf rng =
        .ok ({ m with current_heat := updatedHeat m wf, active := false }, rng)) ∧
    (25 ≤ updatedHeat m wf → updatedHeat m wf < 30 → 4 ≤ r →
      apply_heat_phase fuel m wf rng =
        .ok ({ m with current_heat := updatedHeat m wf, active := false }, rng1)) ∧
    (25 ≤ updatedHeat m wf → updatedHeat m wf < 30 → r < 4 →
      m.weapons.all (fun mw => !ammoPositive mw.ammo_remaining) = true →
      apply_heat_phase fuel m wf rng =
        .ok ({ m with current_heat := updatedHeat m wf }, rng1)) ∧
    (19 ≤ updatedHeat m wf → updatedHeat m wf < 25 → 6 ≤ r →
      apply_heat_phase fuel m wf rng =
        .ok ({ m with current_heat := updatedHeat m wf, active := false }, rng1)) ∧
    (19 ≤ updatedHeat m wf → updatedHeat m wf < 25 → r < 6 →
      m.weapons.all (fun mw => !ammoPositive mw.ammo_remaining) = true →
      apply_heat_phase fuel m wf rng =
        .ok ({ m with current_heat := updatedHeat m wf }, rng1)) ∧
    (14 ≤ updatedHeat m wf → updatedHeat m wf < 19 → 8 ≤ r →
      apply_heat_phase fuel m wf rng =
        .ok ({ m with current_heat := updatedHeat m wf, active := false }, rng1)) ∧
    (14 ≤ updatedHeat m wf → updatedHeat m wf < 19 → r < 8 →
      m.weapons.all (fun mw => !ammoPositive mw.ammo_remaining) = true →
      apply_heat_phase fuel m wf rng =
        .ok ({ m with current_heat := updatedHeat m wf }, rng1)) ∧
    (updatedHeat m wf < 14 →
      apply_heat_phase fuel m wf rng =
        .ok ({ m with current_heat := updatedHeat m wf }, rng)) := by
  simp only [updatedHeat]
  refine ⟨?_, ?_, ?_, ?_, ?_, ?_, ?_, ?_⟩
  · intro h1
    simp only [apply_heat_phase]
    rw [if_pos (by omega)]
  · intro h1 h2 h3
    simp only [apply_heat_phase, hroll]
    rw [if_neg (by omega), if_pos (by omega), if_pos (by omega)]
  · intro h1 h2 h3 hammo
    simp only [apply_heat_phase, hroll]
    rw [if_neg (by omega), if_pos (by omega), if_neg (by omega)]
    exact heatAmmoCheck_noAmmo fuel _ rng1 hammo
  · intro h1 h2 h3
    simp only [apply_heat_phase, hroll]
    rw [if_neg (by omega), if_neg (by omega), if_pos (by omega), if_pos (by omega)]
  · intro h1 h2 h3 hammo
    simp only [apply_heat_phase, hroll]
    rw [if_neg (by omega), if_neg (by omega), if_pos (by omega), if_neg (by omega)]
    exact heatAmmoCheck_noAmmo fuel _ rng1 hammo
  · intro h1 h2 h3
    simp only [apply_heat_phase, hroll]
    rw [if_neg (by omega), if_neg (by omega), if_neg (by omega), if_pos (by omega),
        if_pos (by omega)]
  · intro h1 h2 h3 hammo
    simp only [apply_heat_phase, hroll]
    rw [if_neg (by omega), if_neg (by omega), if_neg (by omega), if_pos (by omega),
        if_neg (by omega)]
    exact heatAmmoCheck_noAmmo fuel _ rng1 hammo
  · intro h1
    simp only [apply_heat_phase]
    rw [if_neg (by omega), if_neg (by omega), if_neg (by omega), if_neg (by omega)]
    exact heatAmmoCheck_low fuel _ rng (by simpa using (by omega :
      max 0 (m.current_heat + calculate_heat_generated m wf - calculate_heat_dissipation m) < 18))

/-- C2 witness: at updated heat 21 (the [19,25) band) a roll of 8 shuts
the unit down. -/
theorem C2_witness :
    apply_heat_phase 5 mC2w [] ⟨fun _ => 3, 0⟩ =
      .ok ({ mC2w with current_heat := 21, active := false }, ⟨fun _ => 3, 2⟩) := by
  have h := C2_amended_shutdown_thresholds 5 mC2w [] ⟨fun _ => 3, 0⟩ ⟨fun _ => 3, 2⟩ 8 rfl
  exact h.2.2.2.1 (by decide) (by decide) (by decide)

/-! Section: C3: heat-triggered ammo explosion -/

theorem randint_bounds (lo hi : Int) (rng : Rng) (h : lo ≤ hi) :
    lo ≤ (randint lo hi rng).1 ∧ (randint lo hi rng).1 ≤ hi := by
  have h1 := Int.emod_nonneg ((rng.seq rng.pos : Int)) (show hi - lo + 1 ≠ 0 by omega)
  have h2 := Int.emod_lt_of_pos ((rng.seq rng.pos : Int)) (show 0 < hi - lo + 1 by omega)
  refine ⟨?_, ?_⟩
  · show lo ≤ lo + (rng.seq rng.pos : Int) % (hi - lo + 1)
    omega
  · show lo + (rng.seq rng.pos : Int) % (hi - lo + 1) ≤ hi
    omega

theorem getD_mem_cons (w : MountedWeapon) (ws : List MountedWeapon) (n : Nat) :
    (w :: ws).getD n w ∈ w :: ws := by
  by_cases h : n < (w :: ws).length
  · rw [List.getD_eq_getElem _ _ h]
    exact List.getElem_mem h
  · rw [List.getD_eq_default _ _ (by omega)]
    exact List.mem_cons_self _ _

theorem heatAmmoCheck_boom (fuel : Nat) (m : Mech) (rng rng1 : Rng) (r : Int)
    (h18 : 18 ≤ m.current_heat) (hroll : roll_2d6 rng = (r, rng1))
    (w : MountedWeapon) (ws : List MountedWeapon)
    (hfilter : m.weapons.filter (fun mw => ammoPositive mw.ammo_remaining) = w :: ws) :
    (r < 4 → heatAmmoCheck fuel m rng = .ok (m, rng1)) ∧
    (4 ≤ r → ∃ (k : Int) (rng2 : Rng),
       randint 0 (((w :: ws).length : Int) - 1) rng1 = (k, rng2) ∧
       k.toNat < (w :: ws).length ∧
       ammoPositive ((w :: ws).getD k.toNat w).ammo_remaining = true ∧
       heatAmmoCheck fuel m rng =
         _ammo_explosion fuel m ((w :: ws).getD k.toNat w).location
           ("Ammo " ++ ((w :: ws).getD k.toNat w).weapon.name) rng2) := by
  have hany : m.weapons.any (fun mw => ammoPositive mw.ammo_remaining) = true := by
    rw [List.any_eq_true]
    have hw : w ∈ m.weapons.filter (fun mw => ammoPositive mw.ammo_remaining) := by
      rw [hfilter]; exact List.mem_cons_self _ _
    exact ⟨w, (List.mem_filter.mp hw).1, (List.mem_filter.mp hw).2⟩
  constructor
  · intro hr
    unfold heatAmmoCheck
    rw [if_pos (by omega : m.current_heat ≥ 18), if_pos hany]
    simp only [hroll]
    rw [if_neg (by omega)]
  · intro hr
    have hb := randint_bounds 0 (((w :: ws).length : Int) - 1) rng1
      (by simp [List.length_cons])
    have hlt : ((randint 0 (((w :: ws).length : Int) - 1) rng1).1).toNat <
        (w :: ws).length := by
      simp only [List.length_cons] at hb ⊢
      omega
    refine ⟨(randint 0 (((w :: ws).length : Int) - 1) rng1).1,
            (randint 0 (((w :: ws).length : Int) - 1) rng1).2, rfl, hlt, ?_, ?_⟩
    · have hmem := getD_mem_cons w ws
        ((randint 0 (((w :: ws).length : Int) - 1) rng1).1).toNat
      rw [← hfilter] at hmem
      have h2 := (List.mem_filter.mp hmem).2
      rw [hfilter] at h2
      simpa using h2
    · unfold heatAmmoCheck
      rw [if_pos (by omega : m.current_heat ≥ 18), if_pos hany]
      simp only [hroll]
      rw [if_pos (by omega)]
      rw [hfilter]

/-- C3 amended: the heat-triggered ammo check is reached only when no
shutdown happened first (heat below 30; shutdown roll below the 4/6/8
trigger of the heat band); there, with updated heat at least 18 and some
ammo on board, a 2d6 roll is made and the explosion TRIGGERS exactly when
that roll is 4 or more (the claim had the direction reversed: a roll of 4
or more causes the explosion rather than avoiding it); the victim is one
uniformly chosen ammo-carrying weapon and its explosion runs through
`_ammo_explosion` exactly as in the critical-hit rules. -/
theorem C3_amended_heat_ammo_check (fuel : Nat) (m : Mech)
    (wf : List MountedWeapon) (rng rng1 rng2 : Rng) (r1 r2 : Int)
    (hroll1 : roll_2d6 rng = (r1, rng1)) (hroll2 : roll_2d6 rng1 = (r2, rng2))
    (h18 : 18 ≤ updatedHeat m wf) (h30 : updatedHeat m wf < 30)
    (hs1 : 25 ≤ updatedHeat m wf → r1 < 4)
    (hs2 : 19 ≤ updatedHeat m wf → updatedHeat m wf < 25 → r1 < 6)
    (hs3 : updatedHeat m wf < 19 → r1 < 8)
    (w : MountedWeapon) (ws : List MountedWeapon)
    (hfilter : m.weapons.filter (fun mw => ammoPositive mw.ammo_remaining) = w :: ws) :
    (r2 < 4 → apply_heat_phase fuel m wf rng =
        .ok ({ m with current_heat := updatedHeat m wf }, rng2)) ∧
    (4 ≤ r2 → ∃ (k : Int) (rng3 : Rng),
       randint 0 (((w :: ws).length : Int) - 1) rng2 = (k, rng3) ∧
       k.toNat < (w :: ws).length ∧
       ammoPositive ((w :: ws).getD k.toNat w).ammo_remaining = true ∧
       apply_heat_phase fuel m wf rng =
         _ammo_explosion fuel { m with current_heat := updatedHeat m wf }
           ((w :: ws).getD k.toNat w).location
           ("Ammo " ++ ((w :: ws).getD k.toNat w).weapon.name) rng3) := by
  have hkey : apply_heat_phase fuel m wf rng =
      heatAmmoCheck fuel { m with current_heat := updatedHeat m wf } rng1 := by
    simp only [updatedHeat] at *
    simp only [apply_heat_phase, hroll1]
    rw [if_neg (by omega)]
    by_cases h25 : 25 ≤ max 0 (m.current_heat + calculate_heat_generated m wf -
        calculate_heat_dissipation m)
    · rw [if_pos (by omega), if_neg (by have := hs1 h25; omega)]
    · rw [if_neg (by omega)]
      by_cases h19 : 19 ≤ max 0 (m.current_heat + calculate_heat_generated m wf -
          calculate_heat_dissipation m)
      · rw [if_pos (by omega), if_neg (by have := hs2 h19 (by omega); omega)]
      · rw [if_neg (by omega), if_pos (by omega), if_neg (by have := hs3 (by omega); omega)]
  have hboom := heatAmmoCheck_boom fuel { m with current_heat := updatedHeat m wf }
    rng1 rng2 r2 (by simpa [updatedHeat] using h18) hroll2 w ws hfilter
  constructor
  · intro hr
    rw [hkey]
    exact hboom.1 hr
  · intro hr
    rw [hkey]
    exact hboom.2 hr

/-- C3 counterexample: the claim says a roll of 4 or more AVOIDS the
ammo explosion.  At updated heat 18 (shutdown roll 2, no shutdown) the
ammo-check roll comes up 6 (≥ 4) and the explosion fires: the unit's CASE
location is zeroed and destroyed. -/
theorem C3_counterexample :
    roll_2d6 ⟨seqC3, 2⟩ = (6, ⟨seqC3, 4⟩) ∧
    apply_heat_phase 5 mC3 [] ⟨seqC3, 0⟩ = .ok (mC3boom, ⟨seqC3, 5⟩) ∧
    (lookupLoc mC3boom "LT").map Location.destroyed = some true :=
  ⟨rfl, rfl, rfl⟩

/-- C3 witness: at updated heat 18 with ammo on board, shutdown roll 2
(no shutdown) and ammo-check roll 2 (below 4), nothing explodes and only
the heat is updated. -/
theorem C3_witness :
    apply_heat_phase 5 mC3w [] ⟨fun _ => 0, 0⟩ =
      .ok ({ mC3w with current_heat := 18 }, ⟨fun _ => 0, 4⟩) := by
  have h := C3_amended_heat_ammo_check 5 mC3w [] ⟨fun _ => 0, 0⟩ ⟨fun _ => 0, 2⟩
    ⟨fun _ => 0, 4⟩ 2 2 rfl rfl (by decide) (by decide) (by decide) (by decide)
    (by decide) { weapon := MACHINE_GUN, location := "LT", ammo_remaining := some 200 }
    [] rfl
  exact h.1 (by decide)

/-! Section: C5: range-optimizing movement policy -/

/-- C5 counterexample: the claim says distance never increases under the
range-optimizing policy.  With the higher-DPR side walking 8 hexes and the
lower-DPR side running only 2, the net closure is 2 − 8 = −6 and the
distance grows from 2 to 8. -/
theorem C5_counterexample :
    optimal_movement mechC5A mechC5B 2 1 = .ok ("walk", 8, "run", 2, 8) ∧
    (2 : Int) < 8 := by
  exact ⟨rfl, by decide⟩

/-- C5 amended: under the range-optimizing policy (whenever both sides'
heat-adjusted DPR computations return a value), the higher-DPR side walks
(kites) and the other runs (closes); the new distance is the prior
distance minus (runner's hexes − kiter's hexes), or minus the sum of both
walk distances on exactly equal DPR, floored at 1; the distance cannot
increase provided the runner's effective run distance is at least the
kiter's effective walk distance — running does NOT always outrun walking
once heat penalties and differing movement stats are involved, so the
unconditional "distance never increases" fails. -/
theorem C5_amended_optimal_movement (a b : Mech) (d : Int) (hf da db : ℚ)
    (ha : heat_neutral_dpr a d hf = .ok da)
    (hb : heat_neutral_dpr b d hf = .ok db) :
    (da > db → optimal_movement a b d hf =
        .ok ("walk", max 0 (a.walk_mp - get_heat_mp_penalty a.current_heat),
             "run", max 0 (b.run_mp - get_heat_mp_penalty b.current_heat),
             max 1 (d - (max 0 (b.run_mp - get_heat_mp_penalty b.current_heat) -
                         max 0 (a.walk_mp - get_heat_mp_penalty a.current_heat))))) ∧
    (db > da → optimal_movement a b d hf =
        .ok ("run", max 0 (a.run_mp - get_heat_mp_penalty a.current_heat),
             "walk", max 0 (b.walk_mp - get_heat_mp_penalty b.current_heat),
             max 1 (d - (max 0 (a.run_mp - get_heat_mp_penalty a.current_heat) -
                         max 0 (b.walk_mp - get_heat_mp_penalty b.current_heat))))) ∧
    (da = db → optimal_movement a b d hf =
        .ok ("walk", max 0 (a.walk_mp - get_heat_mp_penalty a.current_heat),
             "walk", max 0 (b.walk_mp - get_heat_mp_penalty b.current_heat),
             max 1 (d - (max 0 (a.walk_mp - get_heat_mp_penalty a.current_heat) +
                         max 0 (b.walk_mp - get_heat_mp_penalty b.current_heat))))) ∧
    (∀ am ah bm bh nd,
       optimal_movement a b d hf = .ok (am, ah, bm, bh, nd) → 1 ≤ d →
       (da > db → max 0 (a.walk_mp - get_heat_mp_penalty a.current_heat) ≤
                  max 0 (b.run_mp - get_heat_mp_penalty b.current_heat)) →
       (db > da → max 0 (b.walk_mp - get_heat_mp_penalty b.current_heat) ≤
                  max 0 (a.run_mp - get_heat_mp_penalty a.current_heat)) →
       nd ≤ d) := by
  have hopt : optimal_movement a b d hf =
      (if da > db then
        .ok ("walk", max 0 (a.walk_mp - get_heat_mp_penalty a.current_heat),
             "run", max 0 (b.run_mp - get_heat_mp_penalty b.current_heat),
             max 1 (d - (max 0 (b.run_mp - get_heat_mp_penalty b.current_heat) -
                         max 0 (a.walk_mp - get_heat_mp_penalty a.current_heat))))
      else if db > da then
        .ok ("run", max 0 (a.run_mp - get_heat_mp_penalty a.current_heat),
             "walk", max 0 (b.walk_mp - get_heat_mp_penalty b.current_heat),
             max 1 (d - (max 0 (a.run_mp - get_heat_mp_penalty a.current_heat) -
                         max 0 (b.walk_mp - get_heat_mp_penalty b.current_heat))))
      else
        .ok ("walk", max 0 (a.walk_mp - get_heat_mp_penalty a.current_heat),
             "walk", max 0 (b.walk_mp - get_heat_mp_penalty b.current_heat),
             max 1 (d - (max 0 (a.walk_mp - get_heat_mp_penalty a.current_heat) +
                         max 0 (b.walk_mp - get_heat_mp_penalty b.current_heat))))) := by
    unfold optimal_movement
    rw [ha, hb]
  refine ⟨?_, ?_, ?_, ?_⟩
  · intro h; rw [hopt, if_pos h]
  · intro h; rw [hopt, if_neg (not_lt.mpr h.le), if_pos h]
  · intro h; rw [hopt, if_neg (by rw [h]; exact lt_irrefl db),
       if_neg (by rw [h]; exact lt_irrefl db)]
  · intro am ah bm bh nd hres hd hk1 hk2
    rw [hopt] at hres
    rcases lt_trichotomy da db with hlt | heq | hgt
    · rw [if_neg (not_lt.mpr hlt.le), if_pos hlt] at hres
      have hk := hk2 hlt
      simp only [Except.ok.injEq, Prod.mk.injEq] at hres
      obtain ⟨-, -, -, -, h5⟩ := hres
      omega
    · rw [if_neg (by rw [heq]; exact lt_irrefl db),
          if_neg (by rw [heq]; exact lt_irrefl db)] at hres
      simp only [Except.ok.injEq, Prod.mk.injEq] at hres
      obtain ⟨-, -, -, -, h5⟩ := hres
      have ha0 : (0:Int) ≤ max 0 (a.walk_mp - get_heat_mp_penalty a.current_heat) :=
        le_max_left _ _
      have hb0 : (0:Int) ≤ max 0 (b.walk_mp - get_heat_mp_penalty b.current_heat) :=
        le_max_left _ _
      omega
    · rw [if_pos hgt] at hres
      have hk := hk1 hgt
      simp only [Except.ok.injEq, Prod.mk.injEq] at hres
      obtain ⟨-, -, -, -, h5⟩ := hres
      omega

/-- C5 witness: at distance 2, DPR 2 vs 0 — the higher-DPR side walks its
8 hexes, the other runs its 2, and the distance becomes
max 1 (2 − (2 − 8)) = 8. -/
theorem C5_witness :
    optimal_movement mechC5A mechC5B 2 1 =
      .ok ("walk", max 0 (mechC5A.walk_mp - get_heat_mp_penalty mechC5A.current_heat),
           "run", max 0 (mechC5B.run_mp - get_heat_mp_penalty mechC5B.current_heat),
           max 1 (2 - (max 0 (mechC5B.run_mp - get_heat_mp_penalty mechC5B.current_heat) -
                       max 0 (mechC5A.walk_mp - get_heat_mp_penalty mechC5A.current_heat)))) := by
  have h := C5_amended_optimal_movement mechC5A mechC5B 2 1
    ((2 : Int) : ℚ) ((0 : Int) : ℚ) rfl rfl
  exact h.1 (by norm_num)

/-! Section: C6 and C8: depletion, destruction and transfer in the damage pipeline -/

theorem Location.update_front_self (l : Location) (h : l.current_armor = 0) :
    ({ l with current_armor := 0 } : Location) = l := by
  cases l
  simp_all

theorem Location.update_rear_self (l : Location) (h : l.rear_current_armor = 0) :
    ({ l with rear_current_armor := 0 } : Location) = l := by
  cases l
  simp_all

theorem apply_damage_destroyed_forwards (fuel : Nat) (m : Mech) (locId : String)
    (dmg : Int) (isRear : Bool) (rng : Rng) (l : Location)
    (hl : lookupLoc m locId = some l) (hd : l.destroyed = true) :
    apply_damage (fuel + 1) m locId dmg isRear rng =
      (match l.transfer_to with
       | some t => apply_damage fuel m t dmg false rng
       | none => .ok (m, rng)) := by
  unfold apply_damage
  simp only [pipeline, hl, hd]
  rw [if_pos trivial]

theorem apply_damage_deplete (fuel : Nat) (m : Mech) (locId : String)
    (dmg : Int) (isRear : Bool) (rng : Rng) (l : Location)
    (hl : lookupLoc m locId = some l) (hnd : l.destroyed = false)
    (hra : 0 ≤ l.rear_current_armor) (hfa : 0 ≤ l.current_armor)
    (hs : 0 ≤ l.current_structure)
    (rearHit : Bool) (pool : Int)
    (hrh : rearHit = (isRear && REAR_ARMOR_LOCATIONS.contains locId))
    (hpool : pool = if rearHit then l.rear_current_armor else l.current_armor)
    (hp1 : pool < dmg) (hp2 : l.current_structure ≤ dmg - pool) :
    apply_damage (fuel + 1) m locId dmg isRear rng =
      (if (depletedMech m locId l rearHit).is_dead then
        .ok ({ depletedMech m locId l rearHit with active := false }, rng)
      else if 0 < dmg - pool - l.current_structure then
        (match l.transfer_to with
         | some t => apply_damage fuel (depletedMech m locId l rearHit) t
             (dmg - pool - l.current_structure) false rng
         | none => .ok (depletedMech m locId l rearHit, rng))
      else .ok (depletedMech m locId l rearHit, rng)) := by
  subst hrh
  unfold apply_damage
  simp only [pipeline, hl]
  rw [if_neg (by simp [hnd])]
  cases hb : isRear && REAR_ARMOR_LOCATIONS.contains locId with
  | false =>
    rw [hb] at hpool
    simp only [if_neg Bool.false_ne_true] at hpool ⊢
    subst hpool
    have harm : (if l.current_armor > 0 then
        ({ l with current_armor := l.current_armor - min l.current_armor dmg },
         dmg - min l.current_armor dmg)
      else (l, dmg)) = ({ l with current_armor := 0 }, dmg - l.current_armor) := by
      by_cases h0 : l.current_armor > 0
      · rw [if_pos h0, min_eq_left hp1.le, sub_self]
      · have h0' : l.current_armor = 0 := by omega
        rw [if_neg h0, Location.update_front_self l h0', h0', sub_zero]
    rw [harm]
    dsimp only
    rw [if_neg (by omega : ¬ dmg - l.current_armor ≤ 0)]
    rw [min_eq_left (by omega : l.current_structure ≤ dmg - l.current_armor), sub_self]
    rw [if_neg (by omega : ¬ ((l.current_structure > 0) ∧ ((0:Int) > 0)))]
    dsimp only
    rw [setLoc_setLoc]
    rw [lookupLoc_setLoc_self m locId l _ hl]
    dsimp only
    rw [if_pos (le_refl (0:Int))]
    rw [setLoc_setLoc]
    rfl
  | true =>
    rw [hb] at hpool
    simp only [if_pos] at hpool ⊢
    subst hpool
    have harm : (if l.rear_current_armor > 0 then
        ({ l with rear_current_armor :=
              l.rear_current_armor - min l.rear_current_armor dmg },
         dmg - min l.rear_current_armor dmg)
      else (l, dmg)) = ({ l with rear_current_armor := 0 }, dmg - l.rear_current_armor) := by
      by_cases h0 : l.rear_current_armor > 0
      · rw [if_pos h0, min_eq_left hp1.le, sub_self]
      · have h0' : l.rear_current_armor = 0 := by omega
        rw [if_neg h0, Location.update_rear_self l h0', h0', sub_zero]
    rw [harm]
    dsimp only
    rw [if_neg (by omega : ¬ dmg - l.rear_current_armor ≤ 0)]
    rw [min_eq_left (by omega : l.current_structure ≤ dmg - l.rear_current_armor), sub_self]
    rw [if_neg (by omega : ¬ ((l.current_structure > 0) ∧ ((0:Int) > 0)))]
    dsimp only
    rw [setLoc_setLoc]
    rw [lookupLoc_setLoc_self m locId l _ hl]
    dsimp only
    rw [if_pos (le_refl (0:Int))]
    rw [setLoc_setLoc]
    rfl

/-- C8: whenever `apply_damage` fully depletes a location's internal
structure, the location is marked destroyed, every weapon mounted there is
marked destroyed, and the unit's death condition is re-evaluated: if the
unit is now dead it is marked inactive and damage processing stops with no
further transfer (every other location is left untouched). -/
theorem C8_structure_depletion (fuel : Nat) (m : Mech) (locId : String)
    (dmg : Int) (isRear : Bool) (rng : Rng) (l : Location)
    (hl : lookupLoc m locId = some l) (hnd : l.destroyed = false)
    (hra : 0 ≤ l.rear_current_armor) (hfa : 0 ≤ l.current_armor)
    (hs : 0 ≤ l.current_structure)
    (rearHit : Bool) (pool : Int)
    (hrh : rearHit = (isRear && REAR_ARMOR_LOCATIONS.contains locId))
    (hpool : pool = if rearHit then l.rear_current_armor else l.current_armor)
    (hp1 : pool < dmg) (hp2 : l.current_structure ≤ dmg - pool) :
    lookupLoc (depletedMech m locId l rearHit) locId = some (depletedLoc l rearHit) ∧
    (depletedLoc l rearHit).destroyed = true ∧
    (∀ mw ∈ (depletedMech m locId l rearHit).weapons,
       mw.location = locId → mw.destroyed = true) ∧
    (∀ p, p ≠ locId →
       lookupLoc (depletedMech m locId l rearHit) p = lookupLoc m p) ∧
    ((depletedMech m locId l rearHit).is_dead = true →
      apply_damage (fuel + 1) m locId dmg isRear rng =
        .ok ({ depletedMech m locId l rearHit with active := false }, rng)) := by
  refine ⟨?_, ?_, ?_, ?_, ?_⟩
  · exact lookupLoc_setLoc_self m locId l _ hl
  · cases rearHit <;> rfl
  · exact destroyWeaponsAt_mem m.weapons locId
  · intro p hp
    exact lookupLoc_setLoc_ne m locId p _ hp
  · intro hdead
    rw [apply_damage_deplete fuel m locId dmg isRear rng l hl hnd hra hfa hs
      rearHit pool hrh hpool hp1 hp2]
    rw [if_pos hdead]

/-- C8 witness: 10 damage to a CT with 2 armor and 3 structure destroys
the location, kills the unit, marks it inactive and stops. -/
theorem C8_witness :
    apply_damage 6 mC8 "CT" 10 false ⟨fun _ => 0, 0⟩ =
      .ok ({ depletedMech mC8 "CT" (mkLoc "CT" 2 0 3 [] false) false with
             active := false }, ⟨fun _ => 0, 0⟩) := by
  have h := C8_structure_depletion 5 mC8 "CT" 10 false ⟨fun _ => 0, 0⟩
    (mkLoc "CT" 2 0 3 [] false) rfl rfl (by decide) (by decide) (by decide)
    false 2 (by decide) (by decide) (by decide) (by decide)
  exact h.2.2.2.2 (by decide)

/-- C6 counterexample: the claim says excess damage beyond a destroyed
location's armor and structure appears in full at its transfer target,
dropped only when no transfer path exists.  Here 10 damage destroys an XL
unit's LT (1 structure, transfer target CT exists): the death check fires
first, the unit goes inactive, and the 9 excess points never reach CT. -/
theorem C6_counterexample :
    apply_damage 5 mC6 "LT" 10 false ⟨fun _ => 0, 0⟩ =
      .ok (mC6dead, ⟨fun _ => 0, 0⟩) ∧
    lookupLoc mC6dead "CT" = some (mkLoc "CT" 5 0 5 [] false) ∧
    (mkLoc "LT" 0 0 1 [] false).transfer_to = some "CT" ∧
    mC6dead.active = false :=
  ⟨rfl, rfl, rfl, rfl⟩

/-- C6 amended: damage to an already-destroyed location transfers
unmodified to its fixed transfer target (or is discarded when there is
none); and when damage destroys a location, the excess beyond the
addressed armor pool and the structure appears in full at the transfer
target — recursively, by the same function — being dropped only when the
chain ends with no transfer path OR when the destruction kills the unit:
the death check stops processing before any transfer, so a fatal
destruction drops the excess even when a transfer target exists. -/
theorem C6_damage_transfer (fuel : Nat) (m : Mech) (locId : String)
    (dmg : Int) (isRear : Bool) (rng : Rng) (l : Location)
    (hl : lookupLoc m locId = some l)
    (rearHit : Bool) (pool : Int)
    (hrh : rearHit = (isRear && REAR_ARMOR_LOCATIONS.contains locId))
    (hpool : pool = if rearHit then l.rear_current_armor else l.current_armor) :
    (l.destroyed = true → ∀ t, l.transfer_to = some t →
       apply_damage (fuel + 1) m locId dmg isRear rng =
         apply_damage fuel m t dmg false rng) ∧
    (l.destroyed = true → l.transfer_to = none →
       apply_damage (fuel + 1) m locId dmg isRear rng = .ok (m, rng)) ∧
    (l.destroyed = false → 0 ≤ l.rear_current_armor → 0 ≤ l.current_armor →
     0 ≤ l.current_structure → pool < dmg → l.current_structure ≤ dmg - pool →
     (depletedMech m locId l rearHit).is_dead = false →
     0 < dmg - pool - l.current_structure →
       (∀ t, l.transfer_to = some t →
          apply_damage (fuel + 1) m locId dmg isRear rng =
            apply_damage fuel (depletedMech m locId l rearHit) t
              (dmg - pool - l.current_structure) false rng) ∧
       (l.transfer_to = none →
          apply_damage (fuel + 1) m locId dmg isRear rng =
            .ok (depletedMech m locId l rearHit, rng))) ∧
    (l.destroyed = false → 0 ≤ l.rear_current_armor → 0 ≤ l.current_armor →
     0 ≤ l.current_structure → pool < dmg → l.current_structure ≤ dmg - pool →
     (depletedMech m locId l rearHit).is_dead = true →
       apply_damage (fuel + 1) m locId dmg isRear rng =
         .ok ({ depletedMech m locId l rearHit with active := false }, rng)) := by
  refine ⟨?_, ?_, ?_, ?_⟩
  · intro hd t ht
    rw [apply_damage_destroyed_forwards fuel m locId dmg isRear rng l hl hd, ht]
  · intro hd ht
    rw [apply_damage_destroyed_forwards fuel m locId dmg isRear rng l hl hd, ht]
  · intro hnd hra hfa hs hp1 hp2 halive hexc
    constructor
    · intro t ht
      rw [apply_damage_deplete fuel m locId dmg isRear rng l hl hnd hra hfa hs
        rearHit pool hrh hpool hp1 hp2]
      rw [if_neg (by simp [halive]), if_pos hexc, ht]
    · intro ht
      rw [apply_damage_deplete fuel m locId dmg isRear rng l hl hnd hra hfa hs
        rearHit pool hrh hpool hp1 hp2]
      rw [if_neg (by simp [halive]), if_pos hexc, ht]
  · intro hnd hra hfa hs hp1 hp2 hdead
    rw [apply_damage_deplete fuel m locId dmg isRear rng l hl hnd hra hfa hs
      rearHit pool hrh hpool hp1 hp2]
    rw [if_pos hdead]

/-- C6 witness: 5 damage to a LA with 1 armor and 1 structure destroys it
without killing the standard-engine unit, and the 3 excess points transfer
in full to the LT via the same function. -/
theorem C6_witness :
    apply_damage 6 mC6w "LA" 5 false ⟨fun _ => 0, 0⟩ =
      apply_damage 5 (depletedMech mC6w "LA" (mkLoc "LA" 1 0 1 [] false) false)
        "LT" 3 false ⟨fun _ => 0, 0⟩ := by
  have h := C6_damage_transfer 5 mC6w "LA" 5 false ⟨fun _ => 0, 0⟩
    (mkLoc "LA" 1 0 1 [] false) rfl false 1 (by decide) (by decide)
  have h3 := (h.2.2.1 (by decide) (by decide) (by decide) (by decide) (by decide)
    (by decide) (by decide) (by decide)).1 "LT" (by decide)
  exact h3

/-! Section: C9: the critical-slot retry loop -/

theorem pickSlot_stuck (fuel : Nat) (pos : Nat) :
    pickSlot fuel ["DESTROYED", "Medium Laser"] ⟨fun _ => 0, pos⟩ = none := by
  induction fuel generalizing pos with
  | zero => rfl
  | succ n ih => exact ih (pos + 1)

set_option maxHeartbeats 2000000 in
theorem crits_stuck (fuel : Nat) (pos : Nat) :
    pipeline fuel mC9 (.crits "LT" 1) ⟨fun _ => 0, pos⟩ = .error "OutOfFuel" := by
  cases fuel with
  | zero => rfl
  | succ n =>
    have hp : pickSlot (n + 1) ["DESTROYED", "Medium Laser"] ⟨fun _ => 0, pos⟩ = none :=
      pickSlot_stuck (n + 1) pos
    simp only [pipeline]
    rw [show lookupLoc mC9 "LT" =
      some (mkLoc "LT" 1 0 1 ["DESTROYED", "Medium Laser"] false) from rfl]
    simp only [mkLoc]
    rw [if_neg (by decide)]
    rw [hp]

theorem apply_crits_stuck (fuel : Nat) (pos : Nat) :
    _apply_crits fuel mC9 "LT" 1 ⟨fun _ => 0, pos⟩ = .error "OutOfFuel" :=
  crits_stuck fuel pos

/-- C9 counterexample: the claim says the pick-again-if-destroyed retry
loop cannot run forever.  On a location with one destroyed and one live
slot, the draw stream that always proposes index 0 (the destroyed slot)
makes the retry loop spin forever: no amount of fuel lets
`_apply_crits` with one crit return a result. -/
theorem C9_counterexample :
    ¬ ∃ (fuel : Nat) (res : Mech × Rng),
        _apply_crits fuel mC9 "LT" 1 ⟨fun _ => 0, 0⟩ = .ok res := by
  rintro ⟨fuel, res, hres⟩
  rw [apply_crits_stuck fuel 0] at hres
  exact Except.noConfusion hres

theorem pickSlot_succ (fuel : Nat) (slots : List String) (rng : Rng) :
    pickSlot (fuel + 1) slots rng =
      (if slots.getD (rng.seq rng.pos % slots.length) "" == "DESTROYED" then
        pickSlot fuel slots rng.advance
      else some (rng.seq rng.pos % slots.length, rng.advance)) := by
  have hidx : ((0 : Int) + (rng.seq rng.pos : Int) %
      ((slots.length : Int) - 1 - 0 + 1)).toNat = rng.seq rng.pos % slots.length := by
    have h2 : ((slots.length : Int) - 1 - 0 + 1) = ((slots.length : Int)) := by ring
    rw [h2, zero_add, ← Int.natCast_mod, Int.toNat_natCast]
  simp only [pickSlot, randint]
  rw [hidx]

theorem pickSlot_hits (slots : List String) (seq : Nat → Nat) :
    ∀ (d pos : Nat),
    slots.getD (seq (pos + d) % slots.length) "" ≠ "DESTROYED" →
    ∃ (fuel : Nat) (idx : Nat) (rng1 : Rng),
      pickSlot fuel slots ⟨seq, pos⟩ = some (idx, rng1) ∧
      slots.getD idx "" ≠ "DESTROYED"
  | 0, pos, hgood => by
    rw [Nat.add_zero] at hgood
    refine ⟨1, seq pos % slots.length, Rng.advance ⟨seq, pos⟩, ?_, hgood⟩
    rw [pickSlot_succ, if_neg (by simpa using hgood)]
  | d + 1, pos, hgood => by
    by_cases hcur : slots.getD (seq pos % slots.length) "" = "DESTROYED"
    · have hg2 : slots.getD (seq ((pos + 1) + d) % slots.length) "" ≠ "DESTROYED" := by
        have hadd : pos + 1 + d = pos + (d + 1) := by omega
        rw [hadd]; exact hgood
      obtain ⟨fuel, idx, rng1, hfs, hgi⟩ := pickSlot_hits slots seq d (pos + 1) hg2
      refine ⟨fuel + 1, idx, rng1, ?_, hgi⟩
      rw [pickSlot_succ, if_pos (by simpa using hcur)]
      exact hfs
    · refine ⟨1, seq pos % slots.length, Rng.advance ⟨seq, pos⟩, ?_, hcur⟩
      rw [pickSlot_succ, if_neg (by simpa using hcur)]

/-- C9 amended: applying critical hits stops when no non-destroyed slot
remains, and the pick-again-if-destroyed retry loop terminates for every
draw stream that eventually proposes a live slot index — in particular
for every stream hitting each index infinitely often — but it is NOT
guaranteed to terminate for every stream: a stream that forever proposes
an already-destroyed slot spins the `while` loop without bound, so
"cannot run forever" holds only with probability 1, not unconditionally. -/
theorem C9_amended_retry_termination (slots : List String) (seq : Nat → Nat)
    (pos : Nat)
    (hgood : ∃ d, slots.getD (seq (pos + d) % slots.length) "" ≠ "DESTROYED") :
    ∃ (fuel : Nat) (idx : Nat) (rng1 : Rng),
      pickSlot fuel slots ⟨seq, pos⟩ = some (idx, rng1) ∧
      slots.getD idx "" ≠ "DESTROYED" := by
  obtain ⟨d, hd⟩ := hgood
  exact pickSlot_hits slots seq d pos hd

/-- C9 witness: with the identity draw stream the second proposal (index
1) is the live slot, so the retry loop returns a live slot index. -/
theorem C9_witness :
    ∃ (fuel : Nat) (idx : Nat) (rng1 : Rng),
      pickSlot fuel ["DESTROYED", "Medium Laser"] ⟨fun n => n, 0⟩ = some (idx, rng1) ∧
      (["DESTROYED", "Medium Laser"] : List String).getD idx "" ≠ "DESTROYED" :=
  C9_amended_retry_termination ["DESTROYED", "Medium Laser"] (fun n => n) 0
    ⟨1, by decide⟩

/-! Section: C10: CASE-contained ammo explosions and the active flag -/

theorem is_dead_of_destroyed (m1 : Mech) (locId : String) (l1 : Location)
    (hlook : lookupLoc m1 locId = some l1) (hd : l1.destroyed = true)
    (hkill : locId = "CT" ∨ locId = "HD" ∨
      (m1.engine_type = "xl" ∧ (locId = "LT" ∨ locId = "RT"))) :
    m1.is_dead = true := by
  rcases hkill with hct | hhd | ⟨hxl, hlt | hrt⟩
  · subst hct
    simp [Mech.is_dead, hlook, hd]
  · subst hhd
    simp [Mech.is_dead, hlook, hd]
  · subst hlt
    simp [Mech.is_dead, hlook, hd, hxl]
  · subst hrt
    simp [Mech.is_dead, hlook, hd, hxl]

/-- C10: an ammo explosion in a CASE-protected location zeroes that
location's front armor, rear armor and structure, marks it and every
weapon mounted there destroyed, but never touches the unit's `active`
flag; if the contained explosion destroys the CT, the HD, or a side torso
of an XL-engine unit, `is_dead` becomes true while `active` is unchanged,
so the fight loop (which reads only `active`) still treats the unit as
alive. -/
theorem C10_case_explosion (fuel : Nat) (m : Mech) (locId ammoSlot : String)
    (rng : Rng) (l : Location)
    (hl : lookupLoc m locId = some l) (hcase : l.has_case = true) :
    ∃ m1 : Mech,
      _ammo_explosion (fuel + 1) m locId ammoSlot rng = .ok (m1, rng) ∧
      m1.active = m.active ∧
      lookupLoc m1 locId = some (caseContainedLoc l) ∧
      (∀ mw ∈ m1.weapons, mw.location = locId → mw.destroyed = true) ∧
      ((locId = "CT" ∨ locId = "HD" ∨
          (m.engine_type = "xl" ∧ (locId = "LT" ∨ locId = "RT"))) →
        m1.is_dead = true) := by
  unfold _ammo_explosion
  simp only [pipeline, hl]
  rw [if_pos hcase]
  refine ⟨_, rfl, rfl, ?_, ?_, ?_⟩
  · exact lookupLoc_setLoc_self
      { m with weapons := (explosionSearch m.weapons locId ammoSlot).2 } locId l _ hl
  · exact destroyWeaponsAt_mem _ locId
  · intro hkill
    refine is_dead_of_destroyed _ locId (caseContainedLoc l) ?_ rfl hkill
    exact lookupLoc_setLoc_self
      { m with weapons := (explosionSearch m.weapons locId ammoSlot).2 } locId l _ hl

/-- C10 witness: a CASE-contained ammo explosion in the LT of an XL unit
leaves the unit active while `is_dead` becomes true. -/
theorem C10_witness :
    ∃ m1 : Mech,
      _ammo_explosion 5 mC10 "LT" "Ammo SRM-6" ⟨fun _ => 0, 0⟩ =
        .ok (m1, ⟨fun _ => 0, 0⟩) ∧
      m1.active = true ∧ m1.is_dead = true := by
  obtain ⟨m1, h1, h2, h3, h4, h5⟩ := C10_case_explosion 4 mC10 "LT" "Ammo SRM-6"
    ⟨fun _ => 0, 0⟩ (mkLoc "LT" 2 0 3 ["Ammo SRM-6"] true) rfl rfl
  refine ⟨m1, h1, ?_, h5 (by right; right; exact ⟨rfl, Or.inl rfl⟩)⟩
  rw [h2]
  rfl
